import Mathlib

/-!
Verification of the QRevPy measurement-processing orchestrator
(`Classes/Measurement.py`) against its natural-language specification.

The development shallowly embeds the orchestration layer: the
`Measurement` class's settings pipeline (`apply_settings`,
`current_settings`, `no_filter_interp_settings`, `change_magvar`,
`change_h_offset`, `change_extrapolation`), its aggregation helpers
(`mean_discharges`, the aggregate part of `compute_measurement_properties`)
and the moving-bed fragment of `xml_output`.

Python values that flow through the settings dictionaries (strings such
as processing-mode names, numeric thresholds, `np.nan`, empty lists used
as placeholder thresholds) are modelled by the small inductive `SV`.
External collaborator classes (`TransectData`, `ComputeExtrap`, `QComp`,
`Uncertainty`, `QAData`, `MovingBedTests`) are not part of the source
tree; each of their operations is modelled from the specification as a
deterministic function of its inputs, with the produced "processed data"
recorded as an explicit dependency list of the inputs that the
specification says determine it (spec section 5: every recompute is a
bounded, deterministic numeric pass over in-memory data).
-/

set_option maxHeartbeats 1000000
set_option maxRecDepth 16000

namespace QRev

/-- A Python value stored in a settings dictionary or on a transect:
a string, a rational number (ints and floats), the float `nan`, or the
empty list placeholder used for unset thresholds. -/
inductive SV where
  | str (s : String)
  | num (q : ℚ)
  | nan
  | emptyList
  deriving DecidableEq, Inhabited, Repr

/-- Bottom-track boat-velocity data (`BoatData` stored as
`transect.boat_vel.bt_vel`): the filter settings the module reads and
writes, plus dependency records of the processed outputs.
`filt_proc` models the processed boat velocities produced by
`boat_filters` and `interp_proc` the ones produced by
`boat_interpolations`; modelled from the spec as deterministic functions
of the raw data and the filter parameters. -/
structure BtVel where
  beam_filter : SV
  d_filter : SV
  d_filter_threshold : SV
  w_filter : SV
  w_filter_threshold : SV
  smooth_filter : SV
  interpolate : SV
  filt_proc : List SV
  interp_proc : List SV
  deriving DecidableEq, Inhabited, Repr

/-- GGA GPS boat-velocity data (`transect.boat_vel.gga_vel`). -/
structure GgaVel where
  gps_diff_qual_filter : SV
  gps_altitude_filter : SV
  gps_altitude_filter_change : SV
  gps_HDOP_filter : SV
  gps_HDOP_filter_max : SV
  gps_HDOP_filter_change : SV
  smooth_filter : SV
  interpolate : SV
  filt_proc : List SV
  deriving DecidableEq, Inhabited, Repr

/-- VTG GPS boat-velocity data (`transect.boat_vel.vtg_vel`). -/
structure VtgVel where
  gps_HDOP_filter : SV
  gps_HDOP_filter_max : SV
  gps_HDOP_filter_change : SV
  smooth_filter : SV
  interpolate : SV
  filt_proc : List SV
  deriving DecidableEq, Inhabited, Repr

/-- Boat velocity composite (`transect.boat_vel`): the selected
navigation reference, the composite-tracks setting, and the three
velocity sources.  `nav_proc`, `comp_proc` and `gps_interp_proc` record
the processed outputs of `change_nav_reference`, `composite_tracks` and
`boat_interpolations(target='GPS')`. -/
structure BoatVel where
  selected : SV
  composite : SV
  bt_vel : BtVel
  gga_vel : Option GgaVel
  vtg_vel : Option VtgVel
  nav_proc : List SV
  comp_proc : List SV
  gps_interp_proc : List SV
  deriving DecidableEq, Inhabited, Repr

/-- Water-track data (`transect.w_vel`): the filter and interpolation
settings the module reads and writes, with dependency records for the
outputs of `apply_filter` and `apply_interpolation`. -/
structure WVel where
  beam_filter : SV
  d_filter : SV
  d_filter_threshold : SV
  w_filter : SV
  w_filter_threshold : SV
  smooth_filter : SV
  snr_filter : SV
  wt_depth_filter : SV
  excluded_dist_m : SV
  interpolate_ens : SV
  interpolate_cells : SV
  filt_proc : List SV
  interp_proc : List SV
  deriving DecidableEq, Inhabited, Repr

/-- One depth source (`bt_depths` / `vb_depths` / `ds_depths`). -/
structure DepthData where
  filter_type : SV
  avg_method : SV
  valid_data_method : SV
  interp_type : SV
  deriving DecidableEq, Inhabited, Repr

/-- Depth composite (`transect.depths`): selected source name,
compositing setting, the three sources, and the dependency record of
the processed depths produced by `process_depths`. -/
structure Depths where
  selected : SV
  composite : SV
  bt_depths : DepthData
  vb_depths : Option DepthData
  ds_depths : Option DepthData
  proc : List SV
  deriving DecidableEq, Inhabited, Repr

/-- Edge settings (`transect.edges`): only the two method fields the
pipeline assigns. -/
structure Edges where
  vel_method : SV
  rec_edge_method : SV
  deriving DecidableEq, Inhabited, Repr

/-- Per-transect extrapolation parameters (`transect.extrap`). -/
structure ExtrapData where
  top_method : SV
  bot_method : SV
  exponent : SV
  deriving DecidableEq, Inhabited, Repr

/-- Heading sensor state (`transect.sensors.heading_deg`): the selected
heading source, the magnetic variation and heading offset last applied,
and a dependency record of the heading data they produce
(`change_mag_var` / `change_offset`; modelled from the spec: the
offset/variation is applied to the internal sensor's data). -/
structure Sensors where
  heading_selected : SV
  mag_var : SV
  h_offset : SV
  proc : List SV
  deriving DecidableEq, Inhabited, Repr

/-- A transect (`TransectData`; external to the source tree).  Modelled
from the spec: one crossing's aggregated data, carrying the fields this
module reads and writes.  `raw` is an opaque handle standing for the
immutable raw sensor data from which every processing stage re-derives
its output; `gps` mirrors `transect.gps is not None`; `q_ens_proc`
records the output of `change_q_ensembles`. -/
structure Transect where
  raw : SV
  checked : Bool
  gps : Bool
  proc_method : SV
  q_ens_proc : List SV
  boat_vel : BoatVel
  w_vel : WVel
  depths : Depths
  edges : Edges
  extrap : ExtrapData
  sensors : Sensors
  deriving DecidableEq, Inhabited, Repr

/-- One moving-bed test (`MovingBedTests`): the fields this module
reads (`selected`, `type`, `moving_bed`) plus the user-validity flag,
the use-to-correct flag written by the selection policy, and the
navigation reference the selection was last computed for. -/
structure MovingBedTest where
  selected : Bool
  user_valid : Bool
  use_2_correct : Bool
  quality : SV
  mb_type : SV
  moving_bed : SV
  boat_ref_used : SV
  deriving DecidableEq, Inhabited, Repr

/-- The extrapolation fit object (`ComputeExtrap`; external to the
source tree).  Modelled from the spec (section 4.4): it stores the fit
mode, the representative selected fit (`sel_fit[-1]`'s top method,
bottom method and exponent), the data type of the last normalized data,
the optional subsection extents and validity threshold, and the
discharge-sensitivity result (`ExtrapQSensitivity`) keyed to the
current fit. -/
structure ComputeExtrapFit where
  fit_method : SV
  sel_top : SV
  sel_bot : SV
  sel_exp : SV
  norm_data_type : Option SV
  subsection : Option SV
  threshold : Option SV
  q_sensitivity : Option (List Transect × (SV × SV × SV))
  deriving DecidableEq, Inhabited, Repr

/-- A per-transect discharge result (`QComp`; external).  Modelled from
the spec: `QComp.populate_data(data_in=transect,
moving_bed_data=mb_tests)` integrates one transect's processed data
into a discharge, deterministically; recorded as the dependency pair of
its two inputs. -/
abbrev QCompDep := Transect × List MovingBedTest

/-- The aggregate uncertainty (`Uncertainty.compute_uncertainty(self)`;
external).  Modelled from the spec: deterministic in the measurement's
discharges and transects; recorded as the dependency pair. -/
abbrev UncertaintyDep := List QCompDep × List Transect

/-- The QA result (`QAData(self)`; external).  Modelled from the spec:
deterministic in the measurement's transects, discharges and moving-bed
tests. -/
abbrev QADep := List Transect × List QCompDep × List MovingBedTest

/-- The measurement-level state this module owns: the transect list,
moving-bed tests, extrapolation fit, processing type, and the
discharge / uncertainty / QA results that are fully replaced on every
recompute. -/
structure Measurement where
  transects : List Transect
  mb_tests : List MovingBedTest
  extrap_fit : Option ComputeExtrapFit
  processing : SV
  discharge : List QCompDep
  uncertainty : Option UncertaintyDep
  qa : Option QADep
  deriving DecidableEq, Inhabited, Repr

/-- A settings snapshot: the flat dictionary built by
`current_settings` / `qrev_default_settings` and consumed by
`apply_settings`.  Field names are the dictionary keys.  Keys whose
presence the source actually tests (`'Processing'`, `'extrapTop'`,
`'extrapBot'`, `'extrapExp'`) or that `current_settings` sets only on
some paths (the three `gga*` filter keys when GPS data is present, and
the `ggaSmoothFilter` / `vtgSmoothFilter` keys written only in the
no-GGA / no-VTG branches) are `Option SV`, `none` meaning the key is
absent; the remaining keys are read unconditionally by the pipeline
and every snapshot the claims quantify over carries them. -/
structure Settings where
  NavRef : SV
  CompTracks : SV
  WTbeamFilter : SV
  WTdFilter : SV
  WTdFilterThreshold : SV
  WTwFilter : SV
  WTwFilterThreshold : SV
  WTsmoothFilter : SV
  WTsnrFilter : SV
  WTwtDepthFilter : SV
  WTEnsInterpolation : SV
  WTCellInterpolation : SV
  WTExcludedDistance : SV
  BTbeamFilter : SV
  BTdFilter : SV
  BTdFilterThreshold : SV
  BTwFilter : SV
  BTwFilterThreshold : SV
  BTsmoothFilter : SV
  BTInterpolation : SV
  ggaDiffQualFilter : Option SV
  ggaAltitudeFilter : Option SV
  ggaAltitudeFilterChange : Option SV
  ggaSmoothFilter : Option SV
  vtgSmoothFilter : Option SV
  GPSHDOPFilter : SV
  GPSHDOPFilterMax : SV
  GPSHDOPFilterChange : SV
  GPSSmoothFilter : SV
  GPSInterpolation : SV
  depthAvgMethod : SV
  depthValidMethod : SV
  depthFilterType : SV
  depthReference : SV
  depthComposite : SV
  depthInterpolation : SV
  edgeVelMethod : SV
  edgeRecEdgeMethod : SV
  Processing : Option SV
  extrapTop : Option SV
  extrapBot : Option SV
  extrapExp : Option SV
  deriving DecidableEq, Inhabited, Repr

/-- The `'Manual'` mode string. -/
def manual : SV := .str "Manual"

/-- `transect.change_q_ensembles(proc_method)`.  Modelled from the
spec: re-classifies the discharge ensembles deterministically from the
raw data and the processing method. -/
def change_q_ensembles (proc : SV) (t : Transect) : Transect :=
  { t with proc_method := proc, q_ens_proc := [t.raw, proc] }

/-- `transect.change_nav_reference(update=False, new_nav_ref=ref)`.
Modelled from the spec: re-expresses the boat velocity in the new
reference, deterministically from the raw data and the reference. -/
def change_nav_reference (ref : SV) (t : Transect) : Transect :=
  { t with boat_vel := { t.boat_vel with selected := ref, nav_proc := [t.raw, ref] } }

/-- `MovingBedTests.auto_use_2_correct(moving_bed_tests, boat_ref)`
(external).  Modelled from the spec (section 4.3): recomputes each
test's use-to-correct flag deterministically from the test's immutable
result fields and the chosen navigation reference; user-invalidated
tests are excluded. -/
def auto_use_2_correct (tests : List MovingBedTest) (boat_ref : SV) : List MovingBedTest :=
  tests.map (fun mt =>
    { mt with use_2_correct := mt.user_valid, boat_ref_used := boat_ref })

/-- `transect.composite_tracks(update=False, setting=...)`.  Modelled
from the spec: re-derives the composite track deterministically from
the raw data, the navigation reference and the composite setting. -/
def composite_tracks (setting : SV) (t : Transect) : Transect :=
  { t with boat_vel :=
      { t.boat_vel with composite := setting,
                        comp_proc := [t.raw, t.boat_vel.selected, setting] } }

/-- The keyword arguments `apply_settings` assembles for
`transect.boat_filters` (source lines 855-877).  `none` means the
keyword is not passed.  Note the source text: the `bt_kwargs['beam']`
and `bt_kwargs['other']` assignments are indented one level deeper than
the comments above them and therefore belong to the `else:` branch of
the `BTwFilter == 'Manual'` test. -/
structure BtKwargs where
  difference : SV
  difference_threshold : Option SV
  vertical : SV
  vertical_threshold : Option SV
  beam : Option SV
  other : Option SV
  deriving DecidableEq, Inhabited, Repr

/-- Assembly of `bt_kwargs` in `apply_settings` (lines 855-877). -/
def bt_kwargs_of (s : Settings) : BtKwargs :=
  { difference := s.BTdFilter
    difference_threshold := if s.BTdFilter = manual then some s.BTdFilterThreshold else none
    vertical := s.BTwFilter
    vertical_threshold := if s.BTwFilter = manual then some s.BTwFilterThreshold else none
    beam := if s.BTwFilter = manual then none else some s.BTbeamFilter
    other := if s.BTwFilter = manual then none else some s.BTsmoothFilter }

/-- `transect.boat_filters(update=False, **bt_kwargs)`.  Modelled from
the spec: stores each passed filter setting (an absent keyword leaves
the stored setting unchanged) and recomputes the filtered boat
velocities deterministically from the raw data and the stored
settings. -/
def boat_filters (kw : BtKwargs) (t : Transect) : Transect :=
  let bt := t.boat_vel.bt_vel
  let dth := kw.difference_threshold.getD bt.d_filter_threshold
  let wth := kw.vertical_threshold.getD bt.w_filter_threshold
  let bm := kw.beam.getD bt.beam_filter
  let ot := kw.other.getD bt.smooth_filter
  { t with boat_vel := { t.boat_vel with bt_vel :=
      { bt with d_filter := kw.difference, d_filter_threshold := dth,
                w_filter := kw.vertical, w_filter_threshold := wth,
                beam_filter := bm, smooth_filter := ot,
                filt_proc := [t.raw, kw.difference, dth, kw.vertical, wth, bm, ot] } } }

/-- `transect.boat_interpolations(update=False, target='BT',
method=...)`.  Modelled from the spec: fills rejected ensembles in the
filtered bottom-track data, deterministically from that data and the
interpolation method. -/
def boat_interpolations_bt (method : SV) (t : Transect) : Transect :=
  let bt := t.boat_vel.bt_vel
  { t with boat_vel := { t.boat_vel with bt_vel :=
      { bt with interpolate := method, interp_proc := bt.filt_proc ++ [method] } } }

/-- The `'Processing'` step of the per-transect body (source lines
838-840, the transect part): `change_q_ensembles` runs only when the
`'Processing'` key is present. -/
def proc_step (s : Settings) (t : Transect) : Transect :=
  match s.Processing with
  | some p => change_q_ensembles p t
  | none => t

/-- The navigation-reference step of the per-transect body (source
lines 843-844): the reference is changed only when it differs from the
snapshot's. -/
def nav_step (s : Settings) (t : Transect) : Transect :=
  if t.boat_vel.selected ≠ s.NavRef then change_nav_reference s.NavRef t else t

/-- The moving-bed re-selection performed inside the
navigation-reference step (source lines 845-848): it runs exactly when
that step changes the reference and the test list is non-empty. -/
def mb_upd (s : Settings) (t : Transect) (mb : List MovingBedTest) : List MovingBedTest :=
  if t.boat_vel.selected ≠ s.NavRef ∧ 0 < mb.length then auto_use_2_correct mb s.NavRef
  else mb

/-- The composite-tracks step of the per-transect body (source lines
852-853). -/
def comp_step (s : Settings) (t : Transect) : Transect :=
  if t.boat_vel.composite ≠ s.CompTracks then composite_tracks s.CompTracks t else t

/-- Reading a dictionary key: `some` is a present key, `none` raises
`KeyError`. -/
def req (o : Option SV) : Except Unit SV :=
  match o with
  | some v => .ok v
  | none => .error ()

/-- The GPS filter and interpolation portion of the `apply_settings`
per-transect body (source lines 884-924): GGA filters
(`gps_filters(update=False, **gga_kwargs)`), VTG filters
(`gps_filters(update=False, **vtg_kwargs)`), and
`boat_interpolations(update=False, target='GPS', ...)`, all guarded by
`transect.gps is not None`.  The underlying `TransectData` operations
are modelled from the spec as deterministic re-derivations from the raw
data and the stored filter settings; an absent keyword leaves the
stored setting unchanged.  Reading an absent `gga*` key raises
`KeyError`. -/
def gps_stage (s : Settings) (t : Transect) : Except Unit Transect :=
  if t.gps then do
    let bv := t.boat_vel
    let bv ← match bv.gga_vel with
      | some g => do
          let dq ← req s.ggaDiffQualFilter
          let af ← req s.ggaAltitudeFilter
          let ath ← if af = manual then do
              let v ← req s.ggaAltitudeFilterChange
              pure (some v)
            else
              pure (none : Option SV)
          let athv := ath.getD g.gps_altitude_filter_change
          let hmax := if s.GPSHDOPFilter = manual then s.GPSHDOPFilterMax
                      else g.gps_HDOP_filter_max
          let hchg := if s.GPSHDOPFilter = manual then s.GPSHDOPFilterChange
                      else g.gps_HDOP_filter_change
          pure { bv with gga_vel := some { g with
              gps_diff_qual_filter := dq
              gps_altitude_filter := af
              gps_altitude_filter_change := athv
              gps_HDOP_filter := s.GPSHDOPFilter
              gps_HDOP_filter_max := hmax
              gps_HDOP_filter_change := hchg
              smooth_filter := s.GPSSmoothFilter
              filt_proc := [t.raw, dq, af, athv, s.GPSHDOPFilter, hmax, hchg,
                            s.GPSSmoothFilter] } }
      | none => pure bv
    let bv := match bv.vtg_vel with
      | some v =>
          let hmax := if s.GPSHDOPFilter = manual then s.GPSHDOPFilterMax
                      else v.gps_HDOP_filter_max
          let hchg := if s.GPSHDOPFilter = manual then s.GPSHDOPFilterChange
                      else v.gps_HDOP_filter_change
          { bv with vtg_vel := some { v with
              gps_HDOP_filter := s.GPSHDOPFilter
              gps_HDOP_filter_max := hmax
              gps_HDOP_filter_change := hchg
              smooth_filter := s.GPSSmoothFilter
              filt_proc := [t.raw, s.GPSHDOPFilter, hmax, hchg, s.GPSSmoothFilter] } }
      | none => bv
    let bv := { bv with
        gga_vel := bv.gga_vel.map (fun g => { g with interpolate := s.GPSInterpolation })
        vtg_vel := bv.vtg_vel.map (fun v => { v with interpolate := s.GPSInterpolation })
        gps_interp_proc := [t.raw, s.GPSInterpolation] }
    pure { t with boat_vel := bv }
  else
    pure t

/-- `transect.set_depth_reference(update=False, setting=...)`. -/
def set_depth_reference (setting : SV) (t : Transect) : Transect :=
  { t with depths := { t.depths with selected := setting } }

/-- `transect.process_depths(update=True, ...)`.  Modelled from the
spec: applies the depth filter, interpolation, compositing, averaging
and validity settings to every available depth source (the source's
comment: depth settings are always applied to all available sources)
and re-derives the processed depths deterministically from the raw
data, the selected reference and those settings. -/
def process_depths (s : Settings) (t : Transect) : Transect :=
  let upd : DepthData → DepthData := fun _ =>
    { filter_type := s.depthFilterType
      avg_method := s.depthAvgMethod
      valid_data_method := s.depthValidMethod
      interp_type := s.depthInterpolation }
  let d := t.depths
  { t with depths := { d with
      composite := s.depthComposite
      bt_depths := upd d.bt_depths
      vb_depths := d.vb_depths.map upd
      ds_depths := d.ds_depths.map upd
      proc := [t.raw, d.selected, s.depthFilterType, s.depthInterpolation,
               s.depthComposite, s.depthAvgMethod, s.depthValidMethod] } }

/-- `transect.w_vel.apply_filter(transect=transect, **wt_kwargs)`
(source lines 936-957; unlike the bottom-track block, `beam`, `other`,
`snr`, `wt_depth` and `excluded` are passed in every mode).  Modelled
from the spec: stores the settings and re-derives the filtered water
velocities deterministically from the raw data, the stored settings and
the processed depths. -/
def wt_apply_filter (s : Settings) (t : Transect) : Transect :=
  let w := t.w_vel
  let dth := if s.WTdFilter = manual then s.WTdFilterThreshold else w.d_filter_threshold
  let wth := if s.WTwFilter = manual then s.WTwFilterThreshold else w.w_filter_threshold
  { t with w_vel := { w with
      d_filter := s.WTdFilter
      d_filter_threshold := dth
      w_filter := s.WTwFilter
      w_filter_threshold := wth
      beam_filter := s.WTbeamFilter
      smooth_filter := s.WTsmoothFilter
      snr_filter := s.WTsnrFilter
      wt_depth_filter := s.WTwtDepthFilter
      excluded_dist_m := s.WTExcludedDistance
      filt_proc := [t.raw, s.WTdFilter, dth, s.WTwFilter, wth, s.WTbeamFilter,
                    s.WTsmoothFilter, s.WTsnrFilter, s.WTwtDepthFilter,
                    s.WTExcludedDistance] ++ t.depths.proc } }

/-- The edge-method assignments of `apply_settings` (lines 959-961). -/
def set_edge_methods (s : Settings) (t : Transect) : Transect :=
  { t with edges := { rec_edge_method := s.edgeRecEdgeMethod
                      vel_method := s.edgeVelMethod } }

/-- The per-transect body of the first `apply_settings` loop (source
lines 835-961), stage by stage in source order, together with the
moving-bed test update that runs when the navigation reference
changes. -/
def apply_settings_transect (s : Settings) (t : Transect) (mb : List MovingBedTest) :
    Except Unit (Transect × List MovingBedTest) :=
  let t := proc_step s t
  let mb := mb_upd s t mb
  let t := nav_step s t
  let t := comp_step s t
  let t := boat_filters (bt_kwargs_of s) t
  let t := boat_interpolations_bt s.BTInterpolation t
  match gps_stage s t with
  | .error e => .error e
  | .ok t =>
    let t := set_depth_reference s.depthReference t
    let t := process_depths s t
    let t := wt_apply_filter s t
    let t := set_edge_methods s t
    .ok (t, mb)

/-- The first `apply_settings` loop over all transects, threading the
moving-bed test list which the loop body may replace. -/
def apply_settings_loop (s : Settings) :
    List Transect → List MovingBedTest → Except Unit (List Transect × List MovingBedTest)
  | [], mb => .ok ([], mb)
  | t :: ts, mb =>
    match apply_settings_transect s t mb with
    | .error e => .error e
    | .ok (t1, mb1) =>
      match apply_settings_loop s ts mb1 with
      | .error e => .error e
      | .ok (ts1, mb2) => .ok (t1 :: ts1, mb2)

/-- Rendering of an `SV` used to record fit dependencies. -/
def svStr : SV → String
  | .str s => "s:" ++ s
  | .num q => "n:" ++ toString q
  | .nan => "nan"
  | .emptyList => "el"

/-- Rendering of a dependency list. -/
def svsStr (l : List SV) : String :=
  String.intercalate "," (l.map svStr)

/-- The data an automatic extrapolation fit depends on.  Modelled from
the spec (sections 4.2 and 4.4): profiles are fit per transect from the
filtered velocity and depth data, before water-track interpolation. -/
def fit_dep (ts : List Transect) : String :=
  String.intercalate ";"
    (ts.map (fun t => svStr t.raw ++ "|" ++ svsStr t.w_vel.filt_proc ++ "|" ++
                      svsStr t.depths.proc))

/-- The representative automatic fit (`sel_fit[-1]`'s top method,
bottom method and exponent).  Modelled from the spec: a deterministic
function of the transects' filtered data, recorded as a dependency
tag. -/
def auto_fit (ts : List Transect) : SV × SV × SV :=
  (.str ("autoTop@" ++ fit_dep ts),
   .str ("autoBot@" ++ fit_dep ts),
   .str ("autoExp@" ++ fit_dep ts))

/-- `ComputeExtrap.process_profiles(transects, data_type)` (external).
Modelled from the spec (section 4.4): in manual mode the profiles are
summarized, the selected fit reflecting the transects' assigned
extrapolation (the last transect's, matching `sel_fit[-1]`); in
automatic mode the profiles are re-fit from the transect data. -/
def process_profiles (fit : ComputeExtrapFit) (ts : List Transect) (data_type : SV) :
    ComputeExtrapFit :=
  if fit.fit_method = manual then
    match ts.getLast? with
    | some tl =>
      { fit with norm_data_type := some data_type
                 sel_top := tl.extrap.top_method
                 sel_bot := tl.extrap.bot_method
                 sel_exp := tl.extrap.exponent }
    | none => { fit with norm_data_type := some data_type }
  else
    let f := auto_fit ts
    { fit with norm_data_type := some data_type
               sel_top := f.1
               sel_bot := f.2.1
               sel_exp := f.2.2 }

/-- `transect.extrap.set_extrap_data(top=..., bot=..., exp=...)`. -/
def set_extrap_data (top bot exp : SV) (t : Transect) : Transect :=
  { t with extrap := { top_method := top, bot_method := bot, exponent := exp } }

/-- `Measurement.change_extrapolation` (source lines 1344-1397) as
called with `compute_q=False` from `apply_settings`: defaults the
method parameters from `sel_fit[-1]`, stores any supplied extents or
threshold, and runs the manual or automatic fit path.  (The
`compute_q=True` tail recomputes sensitivity and discharge, which
`apply_settings` redoes itself after this call.) -/
def change_extrapolation (fit : ComputeExtrapFit) (ts : List Transect) (method : SV)
    (top bot exp : Option SV) (extents threshold : Option SV) :
    ComputeExtrapFit × List Transect :=
  let top := top.getD fit.sel_top
  let bot := bot.getD fit.sel_bot
  let exp := exp.getD fit.sel_exp
  let fit := match extents with
    | some e => { fit with subsection := some e }
    | none => fit
  let fit := match threshold with
    | some th => { fit with threshold := some th }
    | none => fit
  let data_type := fit.norm_data_type.getD (.str "q")
  if method = manual then
    let fit := { fit with fit_method := manual }
    let ts := ts.map (set_extrap_data top bot exp)
    (process_profiles fit ts data_type, ts)
  else
    let fit := { fit with fit_method := .str "Automatic" }
    let fit := process_profiles fit ts data_type
    let ts := ts.map (set_extrap_data fit.sel_top fit.sel_bot fit.sel_exp)
    (fit, ts)

/-- `ComputeExtrap()` plus `populate_data(transects,
compute_sensitivity=False)` (external).  Modelled from the spec
(section 4.2): a freshly created fit object is fit automatically from
the transects. -/
def compute_extrap_populate (ts : List Transect) : ComputeExtrapFit :=
  let f := auto_fit ts
  { fit_method := .str "Automatic"
    sel_top := f.1
    sel_bot := f.2.1
    sel_exp := f.2.2
    norm_data_type := some (.str "q")
    subsection := none
    threshold := none
    q_sensitivity := none }

/-- The extrapolation block of `apply_settings` (source lines 968-984):
create-and-fit when no fit exists, refit when the fit mode is
Automatic, otherwise reapply the stored or supplied manual fit — in the
last case, when the snapshot lacks `'extrapTop'`, the snapshot is
extended in place with the stored fit's top/bottom/exponent. -/
def apply_settings_extrap (fitOpt : Option ComputeExtrapFit) (ts : List Transect)
    (s : Settings) : Except Unit (ComputeExtrapFit × List Transect × Settings) :=
  match fitOpt with
  | none =>
    let fit0 := compute_extrap_populate ts
    let p := change_extrapolation fit0 ts fit0.fit_method none none none none none
    .ok (p.1, p.2, s)
  | some fit =>
    if fit.fit_method = .str "Automatic" then
      let p := change_extrapolation fit ts fit.fit_method none none none none none
      .ok (p.1, p.2, s)
    else
      let s := if s.extrapTop.isSome then s else
        { s with extrapTop := some fit.sel_top
                 extrapBot := some fit.sel_bot
                 extrapExp := some fit.sel_exp }
      match s.extrapTop, s.extrapBot, s.extrapExp with
      | some top, some bot, some exp =>
        let p := change_extrapolation fit ts fit.fit_method (some top) (some bot)
                   (some exp) none none
        .ok (p.1, p.2, s)
      | _, _, _ => .error ()

/-- `transect.w_vel.apply_interpolation(transect=transect, ...)`
(second `apply_settings` loop, lines 986-991).  Modelled from the spec:
fills invalid ensembles and cells deterministically from the filtered
water data, the interpolation methods and the transect's fitted
extrapolation (the profile-based cell fill uses the fitted profile). -/
def wt_apply_interpolation (s : Settings) (t : Transect) : Transect :=
  let w := t.w_vel
  { t with w_vel := { w with
      interpolate_ens := s.WTEnsInterpolation
      interpolate_cells := s.WTCellInterpolation
      interp_proc := [t.raw, s.WTEnsInterpolation, s.WTCellInterpolation,
                      t.extrap.top_method, t.extrap.bot_method, t.extrap.exponent] ++
                     w.filt_proc } }

/-- `Measurement.apply_settings(settings)` (source lines 826-1001): the
per-transect loop, the extrapolation block, the water-track
interpolation loop, then sensitivity, discharge, uncertainty and QA,
all fully replaced.  Returns the updated measurement together with the
settings dictionary as it stands after the call (the extrapolation
block may have added keys to it). -/
def apply_settings (m : Measurement) (s : Settings) :
    Except Unit (Measurement × Settings) :=
  match apply_settings_loop s m.transects m.mb_tests with
  | .error e => .error e
  | .ok (ts1, mb1) =>
    let proc1 := match s.Processing with
      | some p => if m.transects.isEmpty then m.processing else p
      | none => m.processing
    match apply_settings_extrap m.extrap_fit ts1 s with
    | .error e => .error e
    | .ok (fit1, ts2, s1) =>
      let ts3 := ts2.map (wt_apply_interpolation s1)
      let fit2 := { fit1 with
        q_sensitivity := some (ts3, (fit1.sel_top, fit1.sel_bot, fit1.sel_exp)) }
      let disch := ts3.map (fun t => (t, mb1))
      .ok ({ transects := ts3
             mb_tests := mb1
             extrap_fit := some fit2
             processing := proc1
             discharge := disch
             uncertainty := some (disch, ts3)
             qa := some (ts3, disch, mb1) }, s1)

/-- The index `first_idx` computed at the top of `current_settings`
(source lines 1010-1015): `np.where` yields the first transect whose
`checked` flag is set, falling back to index 0 when none is. -/
def first_checked_aux : List Transect → Nat → Nat
  | [], _ => 0
  | t :: ts, n => if t.checked then n else first_checked_aux ts (n + 1)

/-- `first_idx` for a measurement. -/
def first_checked_idx (m : Measurement) : Nat :=
  first_checked_aux m.transects 0

/-- `getattr(transect.depths, transect.depths.selected)` (source line
1105): dynamic attribute selection over the fixed set of depth
sources.  An unknown name raises `AttributeError` (`none`); a known
name whose source is `None` also leads to an error at the subsequent
`.interp_type` access, so both collapse to `none` here. -/
def get_depth_src (d : Depths) (name : SV) : Option DepthData :=
  if name = .str "bt_depths" then some d.bt_depths
  else if name = .str "vb_depths" then d.vb_depths
  else if name = .str "ds_depths" then d.ds_depths
  else none

/-- `Measurement.current_settings()` (source lines 1003-1122): a pure
read of the first checked transect (or the first transect when none is
checked) into a fresh settings dictionary.  The source contains no
assignment to the measurement or any transect, so the embedding is a
function of the measurement only.  The conditional GPS key writes of
lines 1050-1094 are reproduced per key; the extrapolation keys fall
back to the transect's own extrapolation fields when no fit object
exists (lines 1109-1116). -/
def current_settings (m : Measurement) : Except Unit Settings :=
  match m.transects.get? (first_checked_idx m) with
  | none => .error ()
  | some tc =>
    match get_depth_src tc.depths tc.depths.selected with
    | none => .error ()
    | some seldepth =>
      let bv := tc.boat_vel
      .ok {
        NavRef := bv.selected
        CompTracks := bv.composite
        WTbeamFilter := tc.w_vel.beam_filter
        WTdFilter := tc.w_vel.d_filter
        WTdFilterThreshold := tc.w_vel.d_filter_threshold
        WTwFilter := tc.w_vel.w_filter
        WTwFilterThreshold := tc.w_vel.w_filter_threshold
        WTsmoothFilter := tc.w_vel.smooth_filter
        WTsnrFilter := tc.w_vel.snr_filter
        WTwtDepthFilter := tc.w_vel.wt_depth_filter
        WTEnsInterpolation := tc.w_vel.interpolate_ens
        WTCellInterpolation := tc.w_vel.interpolate_cells
        WTExcludedDistance := tc.w_vel.excluded_dist_m
        BTbeamFilter := bv.bt_vel.beam_filter
        BTdFilter := bv.bt_vel.d_filter
        BTdFilterThreshold := bv.bt_vel.d_filter_threshold
        BTwFilter := bv.bt_vel.w_filter
        BTwFilterThreshold := bv.bt_vel.w_filter_threshold
        BTsmoothFilter := bv.bt_vel.smooth_filter
        BTInterpolation := bv.bt_vel.interpolate
        ggaDiffQualFilter :=
          if tc.gps then
            some (match bv.gga_vel with
              | some g => g.gps_diff_qual_filter
              | none => .num 1)
          else none
        ggaAltitudeFilter :=
          if tc.gps then
            some (match bv.gga_vel with
              | some g => g.gps_altitude_filter
              | none => .str "Off")
          else none
        ggaAltitudeFilterChange :=
          if tc.gps then
            some (match bv.gga_vel with
              | some g => g.gps_altitude_filter_change
              | none => .emptyList)
          else none
        ggaSmoothFilter :=
          if tc.gps then
            match bv.gga_vel with
            | some _ => none
            | none => some (.str "Off")
          else none
        vtgSmoothFilter :=
          match bv.vtg_vel with
          | some _ => none
          | none => some (.str "Off")
        GPSHDOPFilter :=
          match bv.vtg_vel with
          | some v => v.gps_HDOP_filter
          | none =>
            if tc.gps then
              match bv.gga_vel with
              | some g => g.gps_HDOP_filter
              | none => .str "Off"
            else .str "Off"
        GPSHDOPFilterMax :=
          match bv.vtg_vel with
          | some v => v.gps_HDOP_filter_max
          | none =>
            if tc.gps then
              match bv.gga_vel with
              | some g => g.gps_HDOP_filter_max
              | none => .emptyList
            else .emptyList
        GPSHDOPFilterChange :=
          match bv.vtg_vel with
          | some v => v.gps_HDOP_filter_change
          | none =>
            if tc.gps then
              match bv.gga_vel with
              | some g => g.gps_HDOP_filter_change
              | none => .emptyList
            else .emptyList
        GPSSmoothFilter :=
          match bv.vtg_vel with
          | some v => v.smooth_filter
          | none =>
            if tc.gps then
              match bv.gga_vel with
              | some g => g.smooth_filter
              | none => .str "Off"
            else .str "Off"
        GPSInterpolation :=
          match bv.vtg_vel with
          | some v => v.interpolate
          | none =>
            if tc.gps then
              match bv.gga_vel with
              | some g => g.interpolate
              | none => .str "None"
            else .str "None"
        depthAvgMethod := tc.depths.bt_depths.avg_method
        depthValidMethod := tc.depths.bt_depths.valid_data_method
        depthFilterType := tc.depths.bt_depths.filter_type
        depthReference := tc.depths.selected
        depthComposite := tc.depths.composite
        depthInterpolation := seldepth.interp_type
        edgeVelMethod := tc.edges.vel_method
        edgeRecEdgeMethod := tc.edges.rec_edge_method
        Processing := none
        extrapTop := some (match m.extrap_fit with
          | some fit => fit.sel_top
          | none => tc.extrap.top_method)
        extrapBot := some (match m.extrap_fit with
          | some fit => fit.sel_bot
          | none => tc.extrap.bot_method)
        extrapExp := some (match m.extrap_fit with
          | some fit => fit.sel_exp
          | none => tc.extrap.exponent) }

/-- The attribute names `TransectData` exposes.  Modelled from the
spec and from this module's own accesses (`boat_vel` at lines 843,
852, 887 and 1020 among many others, `w_vel`, `depths`, `edges`,
`extrap`, `sensors`, `gps`, `checked`, `adcp`, `in_transect_idx`,
`date_time`): Python resolves attribute access by name against this
fixed set and raises `AttributeError` for any other name. -/
def transect_attr_names : List String :=
  ["raw", "checked", "gps", "boat_vel", "w_vel", "depths", "edges",
   "extrap", "sensors", "adcp", "in_transect_idx", "date_time"]

/-- Whether an attribute access on a transect succeeds. -/
def transect_has_attr (name : String) : Bool :=
  transect_attr_names.contains name

/-- `Measurement.no_filter_interp_settings()` (source lines 1205-1282):
builds the "no filtering" bundle.  Its first statement reads
`self.transects[0].boatVel.selected` (line 1216), written in the
removed camel-case naming; the attribute defined by `TransectData` and
used everywhere else in the module is `boat_vel`, so the access raises
`AttributeError` before any key is written.  The remainder of the
construction (all filters `'Off'`, all interpolations `'None'`, the
camel-case `'btDepths'` depth reference of line 1264) is reproduced for
the counterfactual in which the attribute resolves, reading the
navigation reference from the transect's boat-velocity object. -/
def no_filter_interp_settings (m : Measurement) : Except Unit Settings :=
  match m.transects.get? 0 with
  | none => .error ()
  | some t0 =>
    if transect_has_attr "boatVel" then
      .ok {
        NavRef := t0.boat_vel.selected
        CompTracks := .str "Off"
        WTbeamFilter := .num 3
        WTdFilter := .str "Off"
        WTdFilterThreshold := .nan
        WTwFilter := .str "Off"
        WTwFilterThreshold := .nan
        WTsmoothFilter := .str "Off"
        WTsnrFilter := .str "Off"
        WTExcludedDistance := t0.w_vel.excluded_dist_m
        BTbeamFilter := .num 3
        BTdFilter := .str "Off"
        BTdFilterThreshold := .nan
        BTwFilter := .str "Off"
        BTwFilterThreshold := .nan
        BTsmoothFilter := .str "Off"
        ggaDiffQualFilter := some (.num 1)
        ggaAltitudeFilter := some (.str "Off")
        ggaAltitudeFilterChange := some .nan
        ggaSmoothFilter := none
        vtgSmoothFilter := some (.str "Off")
        GPSHDOPFilter := .str "Off"
        GPSHDOPFilterMax := .nan
        GPSHDOPFilterChange := .nan
        GPSSmoothFilter := .str "Off"
        depthAvgMethod := .str "IDW"
        depthValidMethod := .str "QRev"
        depthReference := .str "btDepths"
        depthFilterType := .str "None"
        depthComposite := .str "Off"
        BTInterpolation := .str "None"
        WTEnsInterpolation := .str "None"
        WTCellInterpolation := .str "None"
        GPSInterpolation := .str "None"
        depthInterpolation := .str "None"
        WTwtDepthFilter := .str "Off"
        edgeVelMethod := .str "MeasMag"
        edgeRecEdgeMethod := .str "Fixed"
        Processing := none
        extrapTop := none
        extrapBot := none
        extrapExp := none }
    else .error ()

/-- The heading-source scan shared by `change_magvar` (lines 759-763)
and `change_h_offset` (lines 779-783): `while n <= n_transects and
recompute == False`, testing `self.transects[n]`.  The loop bound is
inclusive, so when no transect selects the internal heading the body
indexes one past the end of the transect list and raises
`IndexError`. -/
def heading_internal_scan (ts : List Transect) (n : Nat) : Except Unit Bool :=
  if n ≤ ts.length then
    match h : ts.get? n with
    | some t =>
      if t.sensors.heading_selected = .str "internal" then .ok true
      else heading_internal_scan ts (n + 1)
    | none => .error ()
  else .ok false
termination_by ts.length + 1 - n
decreasing_by
  have hlt : n < ts.length := by
    by_contra hge
    push_neg at hge
    rw [List.get?_eq_none.mpr hge] at h
    cases h
  omega

/-- `transect.change_mag_var(magvar)` (external).  Modelled from the
spec: stores the magnetic variation and re-derives the heading data
deterministically from the raw data and the variation. -/
def change_mag_var (magvar : SV) (t : Transect) : Transect :=
  { t with sensors := { t.sensors with
      mag_var := magvar
      proc := [t.raw, magvar, t.sensors.h_offset] } }

/-- `transect.change_offset(h_offset)` (external).  Modelled from the
spec: stores the heading offset and re-derives the heading data. -/
def change_offset (h_offset : SV) (t : Transect) : Transect :=
  { t with sensors := { t.sensors with
      h_offset := h_offset
      proc := [t.raw, t.sensors.mag_var, h_offset] } }

/-- `Measurement.change_magvar(magvar)` for the all-transects path
(source lines 755-773): capture the current settings, scan for an
internal heading source, apply the variation to every transect, and
reapply the settings when the scan requested a recompute. -/
def change_magvar (m : Measurement) (magvar : SV) : Except Unit Measurement :=
  match current_settings m with
  | .error e => .error e
  | .ok s =>
    match heading_internal_scan m.transects 0 with
    | .error e => .error e
    | .ok recompute =>
      let m := { m with transects := m.transects.map (change_mag_var magvar) }
      if recompute then
        match apply_settings m s with
        | .error e => .error e
        | .ok (m1, _) => .ok m1
      else .ok m

/-- `Measurement.change_h_offset(h_offset)` for the all-transects path
(source lines 775-793), structured identically to `change_magvar`. -/
def change_h_offset (m : Measurement) (h_offset : SV) : Except Unit Measurement :=
  match current_settings m with
  | .error e => .error e
  | .ok s =>
    match heading_internal_scan m.transects 0 with
    | .error e => .error e
    | .ok recompute =>
      let m := { m with transects := m.transects.map (change_offset h_offset) }
      if recompute then
        match apply_settings m s with
        | .error e => .error e
        | .ok (m1, _) => .ok m1
      else .ok m

/-- Numeric discharge components of one `QComp` result as consumed by
the aggregation helpers.  `none` models an unavailable (`np.nan`)
component. -/
structure QCompVals where
  total : Option ℚ
  total_uncorrected : Option ℚ
  top : Option ℚ
  middle : Option ℚ
  bottom : Option ℚ
  left : Option ℚ
  right : Option ℚ
  int_cells : Option ℚ
  int_ens : Option ℚ
  deriving DecidableEq, Inhabited, Repr

/-- `np.mean`: the arithmetic mean, propagating `nan` — the result is
`nan` whenever any input is `nan`, and `np.mean([])` is `nan` (with a
warning), not an error. -/
def np_mean (xs : List (Option ℚ)) : Option ℚ :=
  if xs.length = 0 then none
  else if xs.any (fun x => x.isNone) then none
  else some ((xs.filterMap id).sum / xs.length)

/-- `np.nanmean`: the arithmetic mean of the available values, skipping
`nan`; `nan` when no value is available. -/
def np_nanmean (xs : List (Option ℚ)) : Option ℚ :=
  let v := xs.filterMap id
  if v.length = 0 then none else some (v.sum / v.length)

/-- `np.nanmax`: the maximum of the available values, skipping `nan`;
`nan` when no value is available. -/
def np_nanmax (xs : List (Option ℚ)) : Option ℚ :=
  (xs.filterMap id).max?

/-- One component pass of the `mean_discharges` collection loop (source
lines 1420-1430): `for n, transect in enumerate(self.transects): if
transect.checked: q.append(self.discharge[n].comp)` — walking the
checked flags and the discharge list at the same index, raising
`IndexError` when a checked index has no discharge entry. -/
def checked_component (f : QCompVals → Option ℚ) :
    List Bool → List QCompVals → Except Unit (List (Option ℚ))
  | [], _ => .ok []
  | c :: cs, disch =>
    if c then
      match disch.head? with
      | none => .error ()
      | some q =>
        match checked_component f cs disch.tail with
        | .error e => .error e
        | .ok rest => .ok (f q :: rest)
    else checked_component f cs disch.tail

/-- The per-component means computed by `mean_discharges`. -/
structure MeanDischarges where
  total_mean : Option ℚ
  uncorrected_mean : Option ℚ
  top_mean : Option ℚ
  mid_mean : Option ℚ
  bot_mean : Option ℚ
  left_mean : Option ℚ
  right_mean : Option ℚ
  int_cells_mean : Option ℚ
  int_ensembles_mean : Option ℚ
  deriving DecidableEq, Inhabited, Repr

/-- `Measurement.mean_discharges(self)` (source lines 1407-1442):
collect each discharge component over the checked transects, then take
`np.mean` of each collected list. -/
def mean_discharges (checked : List Bool) (disch : List QCompVals) :
    Except Unit MeanDischarges := do
  let tq ← checked_component (fun q => q.total) checked disch
  let uq ← checked_component (fun q => q.total_uncorrected) checked disch
  let topq ← checked_component (fun q => q.top) checked disch
  let midq ← checked_component (fun q => q.middle) checked disch
  let botq ← checked_component (fun q => q.bottom) checked disch
  let lq ← checked_component (fun q => q.left) checked disch
  let rq ← checked_component (fun q => q.right) checked disch
  let icq ← checked_component (fun q => q.int_cells) checked disch
  let ieq ← checked_component (fun q => q.int_ens) checked disch
  pure { total_mean := np_mean tq
         uncorrected_mean := np_mean uq
         top_mean := np_mean topq
         mid_mean := np_mean midq
         bot_mean := np_mean botq
         left_mean := np_mean lq
         right_mean := np_mean rq
         int_cells_mean := np_mean icq
         int_ensembles_mean := np_mean ieq }

/-- The aggregate row of `compute_measurement_properties` (source lines
1602-1612): width, area, boat speed, water speed and average depth over
the checked transects are aggregated with `np.nanmean`. -/
def trans_prop_nanmean_aggregate (checked_vals : List (Option ℚ)) : Option ℚ :=
  np_nanmean checked_vals

/-- The aggregate maxima of `compute_measurement_properties` (source
lines 1613-1614): maximum depth and maximum water speed over the
checked transects are aggregated with `np.nanmax`. -/
def trans_prop_nanmax_aggregate (checked_vals : List (Option ℚ)) : Option ℚ :=
  np_nanmax checked_vals

/-- `selected_idx` of the `MovingBedTestType` node (source line 1721):
the indices of the moving-bed tests whose `selected` flag is `True`. -/
def selected_mb_idx (tests : List MovingBedTest) : List Nat :=
  (tests.enum.filter (fun p => p.2.selected)).map (fun p => p.1)

/-- The `MovingBedTestType` value computed by `xml_output` (source
lines 1717-1726): `'None'` when there are no tests; otherwise the type
of the test at `selected_idx[0]` when at least one test is selected,
and the test at `selected_idx[-1]` otherwise — which, the selected-index
list being empty in that branch, raises `IndexError`. -/
def xml_moving_bed_test_type (tests : List MovingBedTest) : Except Unit SV :=
  if tests.isEmpty then .ok (.str "None")
  else
    let sel := selected_mb_idx tests
    if 1 ≤ sel.length then
      match sel.head? with
      | some i =>
        match tests.get? i with
        | some mt => .ok mt.mb_type
        | none => .error ()
      | none => .error ()
    else
      match sel.getLast? with
      | some i =>
        match tests.get? i with
        | some mt => .ok mt.mb_type
        | none => .error ()
      | none => .error ()

/-- Degrees to radians (`np.deg2rad`). -/
noncomputable def deg2rad (d : ℝ) : ℝ := d * Real.pi / 180

/-- `MiscLibs.common_functions.azdeg2rad` (external).  Modelled from
the spec: converts an azimuth (degrees clockwise from north) to the
mathematical angle in radians, normalized into `[0, 2*pi)`. -/
noncomputable def azdeg2rad (az : ℝ) : ℝ :=
  let direction := deg2rad (90 - az)
  if direction < 0 then direction + 2 * Real.pi else direction

/-- `MiscLibs.common_functions.pol2cart` (external): polar to
cartesian. -/
noncomputable def pol2cart (phi rho : ℝ) : ℝ × ℝ :=
  (rho * Real.cos phi, rho * Real.sin phi)

/-- `np.arctan2 y x`. -/
noncomputable def arctan2 (y x : ℝ) : ℝ :=
  if 0 < x then Real.arctan (y / x)
  else if x < 0 then
    (if 0 ≤ y then Real.arctan (y / x) + Real.pi else Real.arctan (y / x) - Real.pi)
  else
    (if 0 < y then Real.pi / 2 else if y < 0 then -(Real.pi / 2) else 0)

/-- `MiscLibs.common_functions.cart2pol` (external): cartesian to
polar, the angle computed by `np.arctan2(y, x)`. -/
noncomputable def cart2pol (x y : ℝ) : ℝ × ℝ :=
  (arctan2 y x, Real.sqrt (x ^ 2 + y ^ 2))

/-- `MiscLibs.common_functions.rad2azdeg` (external).  Modelled from
the spec: converts a mathematical angle in radians back to an azimuth
in `[0, 360)` degrees. -/
noncomputable def rad2azdeg (rad : ℝ) : ℝ :=
  let az := 90 - rad * 180 / Real.pi
  if az < 0 then az + 360 else az

/-- `np.mean` over a real-valued list. -/
noncomputable def list_rmean (xs : List ℝ) : ℝ := xs.sum / xs.length

/-- The aggregate flow-direction computation of
`compute_measurement_properties` (source lines 1616-1626): each checked
transect's direction is converted through `azdeg2rad` and
`pol2cart(_, 1)` to a unit vector, the two coordinate lists are
averaged with `np.mean`, and the averaged vector is converted back
through `cart2pol` and `rad2azdeg`. -/
noncomputable def avg_water_dir (dirs : List ℝ) : ℝ :=
  let x_coord := dirs.map (fun d => (pol2cart (azdeg2rad d) 1).1)
  let y_coord := dirs.map (fun d => (pol2cart (azdeg2rad d) 1).2)
  rad2azdeg (cart2pol (list_rmean x_coord) (list_rmean y_coord)).1

/-- The specification's wording of the same computation: convert each
direction to a unit vector (east and north components of an azimuth),
average the components arithmetically, and convert back to an
azimuth. -/
noncomputable def vector_averaged_direction (dirs : List ℝ) : ℝ :=
  let east := dirs.map (fun d => Real.sin (deg2rad d))
  let north := dirs.map (fun d => Real.cos (deg2rad d))
  rad2azdeg (cart2pol (list_rmean east) (list_rmean north)).1

/-! Total reformulation of the per-transect pipeline, used to reason
about repeated applications.  `apply_settings_transect` is proved equal
to `transect_pipeline` guarded by `gps_ok`. -/

/-- Whether the GPS portion of the per-transect body reads only present
settings keys (a `False` result is a `KeyError`). -/
def gps_ok (s : Settings) (t : Transect) : Bool :=
  !t.gps ||
    (match t.boat_vel.gga_vel with
     | none => true
     | some _ =>
       s.ggaDiffQualFilter.isSome && s.ggaAltitudeFilter.isSome &&
         (if s.ggaAltitudeFilter = some manual then s.ggaAltitudeFilterChange.isSome
          else true))

/-- The GPS portion of the per-transect body as a total function, its
key reads defaulted; it agrees with `gps_stage` whenever
`gps_ok`. -/
def gps_total (s : Settings) (t : Transect) : Transect :=
  if t.gps then
    let bv := t.boat_vel
    let bv := match bv.gga_vel with
      | some g =>
        let dq := s.ggaDiffQualFilter.getD .nan
        let af := s.ggaAltitudeFilter.getD .nan
        let athv := if af = manual then
            s.ggaAltitudeFilterChange.getD g.gps_altitude_filter_change
          else g.gps_altitude_filter_change
        let hmax := if s.GPSHDOPFilter = manual then s.GPSHDOPFilterMax
                    else g.gps_HDOP_filter_max
        let hchg := if s.GPSHDOPFilter = manual then s.GPSHDOPFilterChange
                    else g.gps_HDOP_filter_change
        { bv with gga_vel := some { g with
            gps_diff_qual_filter := dq
            gps_altitude_filter := af
            gps_altitude_filter_change := athv
            gps_HDOP_filter := s.GPSHDOPFilter
            gps_HDOP_filter_max := hmax
            gps_HDOP_filter_change := hchg
            smooth_filter := s.GPSSmoothFilter
            filt_proc := [t.raw, dq, af, athv, s.GPSHDOPFilter, hmax, hchg,
                          s.GPSSmoothFilter] } }
      | none => bv
    let bv := match bv.vtg_vel with
      | some v =>
          let hmax := if s.GPSHDOPFilter = manual then s.GPSHDOPFilterMax
                      else v.gps_HDOP_filter_max
          let hchg := if s.GPSHDOPFilter = manual then s.GPSHDOPFilterChange
                      else v.gps_HDOP_filter_change
          { bv with vtg_vel := some { v with
              gps_HDOP_filter := s.GPSHDOPFilter
              gps_HDOP_filter_max := hmax
              gps_HDOP_filter_change := hchg
              smooth_filter := s.GPSSmoothFilter
              filt_proc := [t.raw, s.GPSHDOPFilter, hmax, hchg, s.GPSSmoothFilter] } }
      | none => bv
    let bv := { bv with
        gga_vel := bv.gga_vel.map (fun g => { g with interpolate := s.GPSInterpolation })
        vtg_vel := bv.vtg_vel.map (fun v => { v with interpolate := s.GPSInterpolation })
        gps_interp_proc := [t.raw, s.GPSInterpolation] }
    { t with boat_vel := bv }
  else t

/-- The whole per-transect pipeline as a total function. -/
def transect_pipeline (s : Settings) (t : Transect) : Transect :=
  set_edge_methods s (wt_apply_filter s (process_depths s (set_depth_reference
    s.depthReference (gps_total s (boat_interpolations_bt s.BTInterpolation
      (boat_filters (bt_kwargs_of s) (comp_step s (nav_step s (proc_step s t)))))))))

/-- The moving-bed list after the whole first loop. -/
def loop_mb (s : Settings) (ts : List Transect) (mb : List MovingBedTest) :
    List MovingBedTest :=
  ts.foldl (fun mb t => mb_upd s t mb) mb

/-- Overwrite the fields the per-transect pipeline neither reads nor
writes but that the later `apply_settings` stages (the extrapolation
block and the water-track interpolation loop) assign: the transect's
extrapolation parameters and its water-track interpolation state. -/
def set_vol (e1 e2 e3 w1 w2 : SV) (wp : List SV) (t : Transect) : Transect :=
  { t with extrap := { top_method := e1, bot_method := e2, exponent := e3 }
           w_vel := { t.w_vel with interpolate_ens := w1, interpolate_cells := w2,
                                   interp_proc := wp } }

/-- `t` is a fixpoint of the per-transect pipeline for `s`: every
stored setting already equals the one the snapshot would assign (or,
for a threshold or filter the mode makes the pipeline skip, no
constraint), and every processed-data record is the one its stage would
recompute.  The transects produced by `apply_settings` satisfy this for
the snapshot that produced them, and for any snapshot captured from
them by `current_settings` under uniform GPS availability. -/
def reapplies (s : Settings) (t : Transect) : Prop :=
  (∀ p, s.Processing = some p →
    t.proc_method = p ∧ t.q_ens_proc = [t.raw, t.proc_method]) ∧
  t.boat_vel.selected = s.NavRef ∧
  t.boat_vel.composite = s.CompTracks ∧
  t.boat_vel.bt_vel.d_filter = s.BTdFilter ∧
  (s.BTdFilter = manual → t.boat_vel.bt_vel.d_filter_threshold = s.BTdFilterThreshold) ∧
  t.boat_vel.bt_vel.w_filter = s.BTwFilter ∧
  (s.BTwFilter = manual → t.boat_vel.bt_vel.w_filter_threshold = s.BTwFilterThreshold) ∧
  (s.BTwFilter ≠ manual →
    t.boat_vel.bt_vel.beam_filter = s.BTbeamFilter ∧
    t.boat_vel.bt_vel.smooth_filter = s.BTsmoothFilter) ∧
  t.boat_vel.bt_vel.filt_proc =
    [t.raw, t.boat_vel.bt_vel.d_filter, t.boat_vel.bt_vel.d_filter_threshold,
     t.boat_vel.bt_vel.w_filter, t.boat_vel.bt_vel.w_filter_threshold,
     t.boat_vel.bt_vel.beam_filter, t.boat_vel.bt_vel.smooth_filter] ∧
  t.boat_vel.bt_vel.interpolate = s.BTInterpolation ∧
  t.boat_vel.bt_vel.interp_proc =
    t.boat_vel.bt_vel.filt_proc ++ [t.boat_vel.bt_vel.interpolate] ∧
  (t.gps = true → ∀ g, t.boat_vel.gga_vel = some g →
    s.ggaDiffQualFilter = some g.gps_diff_qual_filter ∧
    s.ggaAltitudeFilter = some g.gps_altitude_filter ∧
    (g.gps_altitude_filter = manual →
      s.ggaAltitudeFilterChange = some g.gps_altitude_filter_change) ∧
    g.gps_HDOP_filter = s.GPSHDOPFilter ∧
    (s.GPSHDOPFilter = manual →
      g.gps_HDOP_filter_max = s.GPSHDOPFilterMax ∧
      g.gps_HDOP_filter_change = s.GPSHDOPFilterChange) ∧
    g.smooth_filter = s.GPSSmoothFilter ∧
    g.filt_proc = [t.raw, g.gps_diff_qual_filter, g.gps_altitude_filter,
                   g.gps_altitude_filter_change, g.gps_HDOP_filter,
                   g.gps_HDOP_filter_max, g.gps_HDOP_filter_change,
                   g.smooth_filter] ∧
    g.interpolate = s.GPSInterpolation) ∧
  (t.gps = true → ∀ v, t.boat_vel.vtg_vel = some v →
    v.gps_HDOP_filter = s.GPSHDOPFilter ∧
    (s.GPSHDOPFilter = manual →
      v.gps_HDOP_filter_max = s.GPSHDOPFilterMax ∧
      v.gps_HDOP_filter_change = s.GPSHDOPFilterChange) ∧
    v.smooth_filter = s.GPSSmoothFilter ∧
    v.filt_proc = [t.raw, v.gps_HDOP_filter, v.gps_HDOP_filter_max,
                   v.gps_HDOP_filter_change, v.smooth_filter] ∧
    v.interpolate = s.GPSInterpolation) ∧
  (t.gps = true → t.boat_vel.gps_interp_proc = [t.raw, s.GPSInterpolation]) ∧
  t.depths.selected = s.depthReference ∧
  t.depths.composite = s.depthComposite ∧
  t.depths.bt_depths = { filter_type := s.depthFilterType
                         avg_method := s.depthAvgMethod
                         valid_data_method := s.depthValidMethod
                         interp_type := s.depthInterpolation } ∧
  (∀ d, t.depths.vb_depths = some d →
    d = { filter_type := s.depthFilterType, avg_method := s.depthAvgMethod,
          valid_data_method := s.depthValidMethod,
          interp_type := s.depthInterpolation }) ∧
  (∀ d, t.depths.ds_depths = some d →
    d = { filter_type := s.depthFilterType, avg_method := s.depthAvgMethod,
          valid_data_method := s.depthValidMethod,
          interp_type := s.depthInterpolation }) ∧
  t.depths.proc = [t.raw, t.depths.selected, t.depths.bt_depths.filter_type,
                   t.depths.bt_depths.interp_type, t.depths.composite,
                   t.depths.bt_depths.avg_method,
                   t.depths.bt_depths.valid_data_method] ∧
  t.w_vel.d_filter = s.WTdFilter ∧
  (s.WTdFilter = manual → t.w_vel.d_filter_threshold = s.WTdFilterThreshold) ∧
  t.w_vel.w_filter = s.WTwFilter ∧
  (s.WTwFilter = manual → t.w_vel.w_filter_threshold = s.WTwFilterThreshold) ∧
  t.w_vel.beam_filter = s.WTbeamFilter ∧
  t.w_vel.smooth_filter = s.WTsmoothFilter ∧
  t.w_vel.snr_filter = s.WTsnrFilter ∧
  t.w_vel.wt_depth_filter = s.WTwtDepthFilter ∧
  t.w_vel.excluded_dist_m = s.WTExcludedDistance ∧
  t.w_vel.filt_proc =
    [t.raw, t.w_vel.d_filter, t.w_vel.d_filter_threshold, t.w_vel.w_filter,
     t.w_vel.w_filter_threshold, t.w_vel.beam_filter, t.w_vel.smooth_filter,
     t.w_vel.snr_filter, t.w_vel.wt_depth_filter, t.w_vel.excluded_dist_m] ++
    t.depths.proc ∧
  t.edges = { vel_method := s.edgeVelMethod, rec_edge_method := s.edgeRecEdgeMethod }

/-- All optional keys of a snapshot are present ("fully populated"). -/
def fully_populated (s : Settings) : Prop :=
  s.Processing.isSome = true ∧ s.extrapTop.isSome = true ∧
  s.extrapBot.isSome = true ∧ s.extrapExp.isSome = true ∧
  s.ggaDiffQualFilter.isSome = true ∧ s.ggaAltitudeFilter.isSome = true ∧
  s.ggaAltitudeFilterChange.isSome = true ∧ s.ggaSmoothFilter.isSome = true ∧
  s.vtgSmoothFilter.isSome = true

/-- Uniform GPS availability: every transect has the same GPS, GGA and
VTG presence as the transect `current_settings` reads, and a transect
carrying GPS data has at least one GPS velocity source. -/
def gps_uniform (m : Measurement) : Prop :=
  match m.transects.get? (first_checked_idx m) with
  | none => False
  | some tc =>
    ∀ t ∈ m.transects,
      t.gps = tc.gps ∧
      t.boat_vel.gga_vel.isSome = tc.boat_vel.gga_vel.isSome ∧
      t.boat_vel.vtg_vel.isSome = tc.boat_vel.vtg_vel.isSome ∧
      (t.gps = true → t.boat_vel.gga_vel.isSome = true ∨
        t.boat_vel.vtg_vel.isSome = true)

instance (s : Settings) : Decidable (fully_populated s) := by
  unfold fully_populated
  infer_instance

instance (m : Measurement) : Decidable (gps_uniform m) := by
  unfold gps_uniform
  cases m.transects.get? (first_checked_idx m) <;> infer_instance

/-! Concrete example data used by witnesses and counterexamples. -/

/-- A depth source holding the usual best-practice settings. -/
def exDepthData : DepthData :=
  { filter_type := .str "Smooth", avg_method := .str "IDW",
    valid_data_method := .str "QRev", interp_type := .str "Linear" }

/-- A bottom-track velocity record holding best-practice settings. -/
def exBtVel : BtVel :=
  { beam_filter := .num (-1), d_filter := .str "Auto", d_filter_threshold := .nan,
    w_filter := .str "Auto", w_filter_threshold := .nan, smooth_filter := .str "Off",
    interpolate := .str "Linear", filt_proc := [], interp_proc := [] }

/-- A water-track record holding best-practice settings. -/
def exWVel : WVel :=
  { beam_filter := .num (-1), d_filter := .str "Auto", d_filter_threshold := .nan,
    w_filter := .str "Auto", w_filter_threshold := .nan, smooth_filter := .str "Off",
    snr_filter := .str "Auto", wt_depth_filter := .str "On",
    excluded_dist_m := .num 16, interpolate_ens := .str "abba",
    interpolate_cells := .str "abba", filt_proc := [], interp_proc := [] }

/-- A GPS-free transect with raw-data handle `r`. -/
def exTransect (r : ℚ) (chk : Bool) : Transect :=
  { raw := .num r
    checked := chk
    gps := false
    proc_method := .str "QRev"
    q_ens_proc := []
    boat_vel := { selected := .str "bt_vel", composite := .str "Off", bt_vel := exBtVel,
                  gga_vel := none, vtg_vel := none, nav_proc := [], comp_proc := [],
                  gps_interp_proc := [] }
    w_vel := exWVel
    depths := { selected := .str "bt_depths", composite := .str "Off",
                bt_depths := exDepthData, vb_depths := none, ds_depths := none,
                proc := [] }
    edges := { vel_method := .str "MeasMag", rec_edge_method := .str "Fixed" }
    extrap := { top_method := .str "Power", bot_method := .str "Power",
                exponent := .num 6 }
    sensors := { heading_selected := .str "internal", mag_var := .num 0,
                 h_offset := .num 0, proc := [] } }

/-- A fully populated settings snapshot. -/
def exSettings : Settings :=
  { NavRef := .str "bt_vel", CompTracks := .str "Off"
    WTbeamFilter := .num (-1), WTdFilter := .str "Auto", WTdFilterThreshold := .nan
    WTwFilter := .str "Auto", WTwFilterThreshold := .nan, WTsmoothFilter := .str "Off"
    WTsnrFilter := .str "Auto", WTwtDepthFilter := .str "On"
    WTEnsInterpolation := .str "abba", WTCellInterpolation := .str "abba"
    WTExcludedDistance := .num 16
    BTbeamFilter := .num (-1), BTdFilter := .str "Auto", BTdFilterThreshold := .nan
    BTwFilter := .str "Auto", BTwFilterThreshold := .nan, BTsmoothFilter := .str "Off"
    BTInterpolation := .str "Linear"
    ggaDiffQualFilter := some (.num 2), ggaAltitudeFilter := some (.str "Auto")
    ggaAltitudeFilterChange := some .nan, ggaSmoothFilter := some (.str "Off")
    vtgSmoothFilter := some (.str "Off")
    GPSHDOPFilter := .str "Auto", GPSHDOPFilterMax := .nan
    GPSHDOPFilterChange := .nan, GPSSmoothFilter := .str "Off"
    GPSInterpolation := .str "Linear"
    depthAvgMethod := .str "IDW", depthValidMethod := .str "QRev"
    depthFilterType := .str "Smooth", depthReference := .str "bt_depths"
    depthComposite := .str "Off", depthInterpolation := .str "Linear"
    edgeVelMethod := .str "MeasMag", edgeRecEdgeMethod := .str "Fixed"
    Processing := some (.str "QRev")
    extrapTop := some (.str "Power"), extrapBot := some (.str "Power")
    extrapExp := some (.num 6) }

/-- A two-transect GPS-free measurement. -/
def exMeas : Measurement :=
  { transects := [exTransect 1 true, exTransect 2 true], mb_tests := [],
    extrap_fit := none, processing := .str "QRev", discharge := [],
    uncertainty := none, qa := none }

/-- The result of applying `exSettings` to `exMeas`. -/
def exApplied : Measurement × Settings :=
  match apply_settings exMeas exSettings with
  | .ok p => p
  | .error _ => default

/-- A stored Manual-mode fit object. -/
def exFitManual : ComputeExtrapFit :=
  { fit_method := manual, sel_top := .str "Power", sel_bot := .str "No Slip",
    sel_exp := .num 6, norm_data_type := some (.str "q"), subsection := none,
    threshold := none, q_sensitivity := none }

/-- `exMeas` carrying a Manual-mode fit. -/
def exMeasManual : Measurement := { exMeas with extrap_fit := some exFitManual }

/-- `exSettings` with the three extrapolation keys removed. -/
def exSettingsNoExtrap : Settings :=
  { exSettings with extrapTop := none, extrapBot := none, extrapExp := none }

/-- The settings dictionary as it stands after `apply_settings`
returns, `none` when the call fails. -/
def settings_after (m : Measurement) (s : Settings) : Option Settings :=
  match apply_settings m s with
  | .ok p => some p.2
  | .error _ => none

/-- A GGA velocity record holding best-practice settings. -/
def exGga : GgaVel :=
  { gps_diff_qual_filter := .num 2, gps_altitude_filter := .str "Auto",
    gps_altitude_filter_change := .nan, gps_HDOP_filter := .str "Auto",
    gps_HDOP_filter_max := .nan, gps_HDOP_filter_change := .nan,
    smooth_filter := .str "Off", interpolate := .str "Linear", filt_proc := [] }

/-- A checked transect with GPS data but neither GGA nor VTG
velocity. -/
def exTransectGpsNoGga : Transect := { exTransect 3 true with gps := true }

/-- An unchecked transect with GPS data and a GGA velocity. -/
def exTransectGga : Transect :=
  { exTransect 4 false with
      gps := true
      boat_vel := { (exTransect 4 false).boat_vel with gga_vel := some exGga } }

/-- A measurement whose transects differ in GGA availability: the first
checked transect carries GPS data without a GGA velocity, the second
transect carries one. -/
def exMeasMixed : Measurement :=
  { transects := [exTransectGpsNoGga, exTransectGga], mb_tests := [],
    extrap_fit := none, processing := .str "QRev", discharge := [],
    uncertainty := none, qa := none }

/-- The result of applying `exSettings` to the mixed measurement. -/
def exMixedApplied : Measurement × Settings :=
  match apply_settings exMeasMixed exSettings with
  | .ok p => p
  | .error _ => default

/-- The snapshot `current_settings` captures from the processed mixed
measurement. -/
def exMixedCaptured : Settings :=
  match current_settings exMixedApplied.1 with
  | .ok s => s
  | .error _ => default

/-- The result of reapplying the captured snapshot to the processed
mixed measurement. -/
def exMixedReapplied : Measurement × Settings :=
  match apply_settings exMixedApplied.1 exMixedCaptured with
  | .ok p => p
  | .error _ => default

/-- A one-transect measurement whose heading source is an external
reference. -/
def exMeasExternal : Measurement :=
  { transects := [{ exTransect 5 true with
      sensors := { heading_selected := .str "external", mag_var := .num 0,
                   h_offset := .num 0, proc := [] } }]
    mb_tests := [], extrap_fit := none, processing := .str "QRev", discharge := [],
    uncertainty := none, qa := none }

/-- Discharge components all equal to the same optional value. -/
def mkQVals (v : Option ℚ) : QCompVals :=
  { total := v, total_uncorrected := v, top := v, middle := v, bottom := v,
    left := v, right := v, int_cells := v, int_ens := v }

/-- A moving-bed test list with one test, none selected. -/
def exMbTests : List MovingBedTest :=
  [{ selected := false, user_valid := true, use_2_correct := false,
     quality := .str "Good", mb_type := .str "Loop", moving_bed := .str "No",
     boat_ref_used := .str "BT" }]

/-- The snapshot `current_settings` captures from the processed
GPS-free measurement. -/
def exCaptured : Settings :=
  match current_settings exApplied.1 with
  | .ok s => s
  | .error _ => default

/-- `exSettingsNoExtrap` extended in place with the stored Manual fit's
extrapolation values, as the extrapolation block writes it. -/
def exSettingsExtended : Settings :=
  { exSettingsNoExtrap with
      extrapTop := some (.str "Power")
      extrapBot := some (.str "No Slip")
      extrapExp := some (.num 6) }

/-- The snapshot `current_settings` captures from the raw `exMeas`. -/
def exRawCaptured : Settings :=
  match current_settings exMeas with
  | .ok s => s
  | .error _ => default

/-! Lemmas: the fallible per-transect body equals the total pipeline
guarded by `gps_ok`. -/

@[simp] theorem proc_step_boat_vel (s : Settings) (t : Transect) :
    (proc_step s t).boat_vel = t.boat_vel := by
  unfold proc_step change_q_ensembles
  cases s.Processing <;> rfl

@[simp] theorem proc_step_gps (s : Settings) (t : Transect) :
    (proc_step s t).gps = t.gps := by
  unfold proc_step change_q_ensembles
  cases s.Processing <;> rfl

@[simp] theorem nav_step_gps (s : Settings) (t : Transect) :
    (nav_step s t).gps = t.gps := by
  unfold nav_step change_nav_reference
  split <;> rfl

@[simp] theorem nav_step_gga (s : Settings) (t : Transect) :
    (nav_step s t).boat_vel.gga_vel = t.boat_vel.gga_vel := by
  unfold nav_step change_nav_reference
  split <;> rfl

@[simp] theorem comp_step_gps (s : Settings) (t : Transect) :
    (comp_step s t).gps = t.gps := by
  unfold comp_step composite_tracks
  split <;> rfl

@[simp] theorem comp_step_gga (s : Settings) (t : Transect) :
    (comp_step s t).boat_vel.gga_vel = t.boat_vel.gga_vel := by
  unfold comp_step composite_tracks
  split <;> rfl

@[simp] theorem boat_filters_gps (kw : BtKwargs) (t : Transect) :
    (boat_filters kw t).gps = t.gps := rfl

@[simp] theorem boat_filters_gga (kw : BtKwargs) (t : Transect) :
    (boat_filters kw t).boat_vel.gga_vel = t.boat_vel.gga_vel := rfl

@[simp] theorem boat_interpolations_bt_gps (m : SV) (t : Transect) :
    (boat_interpolations_bt m t).gps = t.gps := rfl

@[simp] theorem boat_interpolations_bt_gga (m : SV) (t : Transect) :
    (boat_interpolations_bt m t).boat_vel.gga_vel = t.boat_vel.gga_vel := rfl

theorem mb_upd_proc_step (s : Settings) (t : Transect) (mb : List MovingBedTest) :
    mb_upd s (proc_step s t) mb = mb_upd s t mb := by
  unfold mb_upd
  rw [proc_step_boat_vel]

theorem gps_stage_eq (s : Settings) (t : Transect) :
    gps_stage s t = if gps_ok s t then .ok (gps_total s t) else .error () := by
  unfold gps_stage gps_total gps_ok req
  cases hgps : t.gps
  · simp [pure, Except.pure]
  · simp only [Bool.not_true, Bool.false_or, if_true]
    cases hgga : t.boat_vel.gga_vel with
    | none =>
      simp [hgga, bind, Except.bind, pure, Except.pure]
    | some g =>
      cases hdq : s.ggaDiffQualFilter with
      | none => simp [hgga, hdq, bind, Except.bind]
      | some dq =>
        cases haf : s.ggaAltitudeFilter with
        | none => simp [hgga, hdq, haf, bind, Except.bind]
        | some af =>
          by_cases hman : af = manual
          · cases hath : s.ggaAltitudeFilterChange with
            | none => simp [hgga, hdq, haf, hath, hman, bind, Except.bind]
            | some ath =>
              simp [hgga, hdq, haf, hath, hman, bind, Except.bind, pure, Except.pure]
          · simp [hgga, hdq, haf, hman, bind, Except.bind, pure, Except.pure]

theorem apply_settings_transect_eq (s : Settings) (t : Transect) (mb : List MovingBedTest) :
    apply_settings_transect s t mb =
      if gps_ok s t then .ok (transect_pipeline s t, mb_upd s t mb) else .error () := by
  unfold apply_settings_transect transect_pipeline
  dsimp only
  rw [gps_stage_eq, mb_upd_proc_step]
  have h1 : gps_ok s (boat_interpolations_bt s.BTInterpolation (boat_filters
      (bt_kwargs_of s) (comp_step s (nav_step s (proc_step s t))))) = gps_ok s t := by
    unfold gps_ok
    simp
  rw [h1]
  by_cases hok : gps_ok s t = true
  · simp [hok]
  · simp [hok]

theorem apply_settings_loop_eq (s : Settings) (ts : List Transect)
    (mb : List MovingBedTest) :
    apply_settings_loop s ts mb =
      if ts.all (fun t => gps_ok s t) then
        .ok (ts.map (transect_pipeline s), loop_mb s ts mb)
      else .error () := by
  induction ts generalizing mb with
  | nil => simp [apply_settings_loop, loop_mb]
  | cons t ts ih =>
    unfold apply_settings_loop
    rw [apply_settings_transect_eq]
    by_cases h : gps_ok s t = true
    · rw [if_pos h]
      dsimp only
      rw [ih]
      by_cases hall : ts.all (fun t => gps_ok s t) = true
      · simp [hall, h, loop_mb]
      · simp [hall, h]
    · simp [h]

end QRev
namespace QRev
theorem proc_step_fix (s : Settings) (t : Transect)
    (h : ∀ p, s.Processing = some p →
      t.proc_method = p ∧ t.q_ens_proc = [t.raw, t.proc_method]) :
    proc_step s t = t := by
  unfold proc_step change_q_ensembles
  cases hP : s.Processing with
  | none => rfl
  | some p =>
    obtain ⟨h1, h2⟩ := h p hP
    cases t
    simp_all

theorem nav_step_fix (s : Settings) (t : Transect)
    (h : t.boat_vel.selected = s.NavRef) :
    nav_step s t = t := by
  unfold nav_step
  rw [h]
  simp

theorem mb_upd_fix (s : Settings) (t : Transect) (mb : List MovingBedTest)
    (h : t.boat_vel.selected = s.NavRef) :
    mb_upd s t mb = mb := by
  unfold mb_upd
  rw [h]
  simp

theorem comp_step_fix (s : Settings) (t : Transect)
    (h : t.boat_vel.composite = s.CompTracks) :
    comp_step s t = t := by
  unfold comp_step
  rw [h]
  simp

theorem boat_filters_fix (s : Settings) (t : Transect)
    (h1 : t.boat_vel.bt_vel.d_filter = s.BTdFilter)
    (h2 : s.BTdFilter = manual →
      t.boat_vel.bt_vel.d_filter_threshold = s.BTdFilterThreshold)
    (h3 : t.boat_vel.bt_vel.w_filter = s.BTwFilter)
    (h4 : s.BTwFilter = manual →
      t.boat_vel.bt_vel.w_filter_threshold = s.BTwFilterThreshold)
    (h5 : s.BTwFilter ≠ manual →
      t.boat_vel.bt_vel.beam_filter = s.BTbeamFilter ∧
      t.boat_vel.bt_vel.smooth_filter = s.BTsmoothFilter)
    (h6 : t.boat_vel.bt_vel.filt_proc =
      [t.raw, t.boat_vel.bt_vel.d_filter, t.boat_vel.bt_vel.d_filter_threshold,
       t.boat_vel.bt_vel.w_filter, t.boat_vel.bt_vel.w_filter_threshold,
       t.boat_vel.bt_vel.beam_filter, t.boat_vel.bt_vel.smooth_filter]) :
    boat_filters (bt_kwargs_of s) t = t := by
  unfold boat_filters bt_kwargs_of
  dsimp only
  by_cases hmw : s.BTwFilter = manual
  · by_cases hmd : s.BTdFilter = manual <;>
      (cases t with | mk raw chk gps pm qep bv wv dp ed ex sn =>
       cases bv with | mk sel comp btv gga vtg np cp gip =>
       cases btv
       simp_all)
  · obtain ⟨h5a, h5b⟩ := h5 hmw
    by_cases hmd : s.BTdFilter = manual <;>
      (cases t with | mk raw chk gps pm qep bv wv dp ed ex sn =>
       cases bv with | mk sel comp btv gga vtg np cp gip =>
       cases btv
       simp_all)
end QRev
namespace QRev
theorem boat_interpolations_bt_fix (s : Settings) (t : Transect)
    (h1 : t.boat_vel.bt_vel.interpolate = s.BTInterpolation)
    (h2 : t.boat_vel.bt_vel.interp_proc =
      t.boat_vel.bt_vel.filt_proc ++ [t.boat_vel.bt_vel.interpolate]) :
    boat_interpolations_bt s.BTInterpolation t = t := by
  unfold boat_interpolations_bt
  cases t with | mk raw chk gps pm qep bv wv dp ed ex sn =>
  cases bv with | mk sel comp btv gga vtg np cp gip =>
  cases btv
  simp_all

theorem gps_total_fix (s : Settings) (t : Transect)
    (hgga : t.gps = true → ∀ g, t.boat_vel.gga_vel = some g →
      s.ggaDiffQualFilter = some g.gps_diff_qual_filter ∧
      s.ggaAltitudeFilter = some g.gps_altitude_filter ∧
      (g.gps_altitude_filter = manual →
        s.ggaAltitudeFilterChange = some g.gps_altitude_filter_change) ∧
      g.gps_HDOP_filter = s.GPSHDOPFilter ∧
      (s.GPSHDOPFilter = manual →
        g.gps_HDOP_filter_max = s.GPSHDOPFilterMax ∧
        g.gps_HDOP_filter_change = s.GPSHDOPFilterChange) ∧
      g.smooth_filter = s.GPSSmoothFilter ∧
      g.filt_proc = [t.raw, g.gps_diff_qual_filter, g.gps_altitude_filter,
                     g.gps_altitude_filter_change, g.gps_HDOP_filter,
                     g.gps_HDOP_filter_max, g.gps_HDOP_filter_change,
                     g.smooth_filter] ∧
      g.interpolate = s.GPSInterpolation)
    (hvtg : t.gps = true → ∀ v, t.boat_vel.vtg_vel = some v →
      v.gps_HDOP_filter = s.GPSHDOPFilter ∧
      (s.GPSHDOPFilter = manual →
        v.gps_HDOP_filter_max = s.GPSHDOPFilterMax ∧
        v.gps_HDOP_filter_change = s.GPSHDOPFilterChange) ∧
      v.smooth_filter = s.GPSSmoothFilter ∧
      v.filt_proc = [t.raw, v.gps_HDOP_filter, v.gps_HDOP_filter_max,
                     v.gps_HDOP_filter_change, v.smooth_filter] ∧
      v.interpolate = s.GPSInterpolation)
    (hgip : t.gps = true → t.boat_vel.gps_interp_proc = [t.raw, s.GPSInterpolation]) :
    gps_total s t = t := by
  obtain ⟨raw, chk, gps, pm, qep, bv, wv, dp, ed, ex, sn⟩ := t
  obtain ⟨sel, comp, btv, ggav, vtgv, np, cp, gip⟩ := bv
  unfold gps_total
  cases gps with
  | false => rfl
  | true =>
    have hggaS := hgga rfl
    have hvtgS := hvtg rfl
    have hgipS := hgip rfl
    clear hgga hvtg hgip
    dsimp only
    cases ggav with
    | none =>
      cases vtgv with
      | none => simp_all
      | some v =>
        obtain ⟨v1, v2, v3, v4, v5⟩ := hvtgS v rfl
        clear hvtgS hggaS
        cases v
        by_cases hman : s.GPSHDOPFilter = manual <;> simp_all
    | some g =>
      obtain ⟨g1, g2, g3, g4, g5, g6, g7, g8⟩ := hggaS g rfl
      clear hggaS
      cases vtgv with
      | none =>
        clear hvtgS
        cases g
        by_cases hman : s.GPSHDOPFilter = manual <;>
          by_cases hmana : s.ggaAltitudeFilter = some manual <;> simp_all
      | some v =>
        obtain ⟨v1, v2, v3, v4, v5⟩ := hvtgS v rfl
        clear hvtgS
        cases g
        cases v
        by_cases hman : s.GPSHDOPFilter = manual <;>
          by_cases hmana : s.ggaAltitudeFilter = some manual <;> simp_all

end QRev
namespace QRev
theorem set_depth_reference_fix (s : Settings) (t : Transect)
    (h : t.depths.selected = s.depthReference) :
    set_depth_reference s.depthReference t = t := by
  unfold set_depth_reference
  cases t with | mk raw chk gps pm qep bv wv dp ed ex sn =>
  cases dp
  simp_all

theorem process_depths_fix (s : Settings) (t : Transect)
    (h1 : t.depths.composite = s.depthComposite)
    (h2 : t.depths.bt_depths = { filter_type := s.depthFilterType
                                 avg_method := s.depthAvgMethod
                                 valid_data_method := s.depthValidMethod
                                 interp_type := s.depthInterpolation })
    (h3 : ∀ d, t.depths.vb_depths = some d →
      d = { filter_type := s.depthFilterType, avg_method := s.depthAvgMethod,
            valid_data_method := s.depthValidMethod,
            interp_type := s.depthInterpolation })
    (h4 : ∀ d, t.depths.ds_depths = some d →
      d = { filter_type := s.depthFilterType, avg_method := s.depthAvgMethod,
            valid_data_method := s.depthValidMethod,
            interp_type := s.depthInterpolation })
    (h5 : t.depths.proc = [t.raw, t.depths.selected, t.depths.bt_depths.filter_type,
                           t.depths.bt_depths.interp_type, t.depths.composite,
                           t.depths.bt_depths.avg_method,
                           t.depths.bt_depths.valid_data_method]) :
    process_depths s t = t := by
  obtain ⟨raw, chk, gps, pm, qep, bv, wv, dp, ed, ex, sn⟩ := t
  obtain ⟨sel, comp, btd, vbd, dsd, dproc⟩ := dp
  unfold process_depths
  dsimp only
  cases vbd with
  | none =>
    cases dsd with
    | none => simp_all
    | some d2 =>
      have h4 := h4 d2 rfl
      simp_all
  | some d1 =>
    have h3 := h3 d1 rfl
    cases dsd with
    | none => simp_all
    | some d2 =>
      have h4 := h4 d2 rfl
      simp_all

theorem wt_apply_filter_fix (s : Settings) (t : Transect)
    (h1 : t.w_vel.d_filter = s.WTdFilter)
    (h2 : s.WTdFilter = manual → t.w_vel.d_filter_threshold = s.WTdFilterThreshold)
    (h3 : t.w_vel.w_filter = s.WTwFilter)
    (h4 : s.WTwFilter = manual → t.w_vel.w_filter_threshold = s.WTwFilterThreshold)
    (h5 : t.w_vel.beam_filter = s.WTbeamFilter)
    (h6 : t.w_vel.smooth_filter = s.WTsmoothFilter)
    (h7 : t.w_vel.snr_filter = s.WTsnrFilter)
    (h8 : t.w_vel.wt_depth_filter = s.WTwtDepthFilter)
    (h9 : t.w_vel.excluded_dist_m = s.WTExcludedDistance)
    (h10 : t.w_vel.filt_proc =
      [t.raw, t.w_vel.d_filter, t.w_vel.d_filter_threshold, t.w_vel.w_filter,
       t.w_vel.w_filter_threshold, t.w_vel.beam_filter, t.w_vel.smooth_filter,
       t.w_vel.snr_filter, t.w_vel.wt_depth_filter, t.w_vel.excluded_dist_m] ++
      t.depths.proc) :
    wt_apply_filter s t = t := by
  obtain ⟨raw, chk, gps, pm, qep, bv, wv, dp, ed, ex, sn⟩ := t
  cases wv
  unfold wt_apply_filter
  dsimp only
  by_cases hmd : s.WTdFilter = manual <;> by_cases hmw : s.WTwFilter = manual <;>
    simp_all

theorem set_edge_methods_fix (s : Settings) (t : Transect)
    (h : t.edges = { vel_method := s.edgeVelMethod
                     rec_edge_method := s.edgeRecEdgeMethod }) :
    set_edge_methods s t = t := by
  obtain ⟨raw, chk, gps, pm, qep, bv, wv, dp, ed, ex, sn⟩ := t
  unfold set_edge_methods
  simp_all
end QRev
namespace QRev
end QRev
namespace QRev
theorem pre3_facts (s : Settings) (t : Transect) :
    let u := comp_step s (nav_step s (proc_step s t))
    (∀ p, s.Processing = some p →
      u.proc_method = p ∧ u.q_ens_proc = [u.raw, u.proc_method]) ∧
    u.boat_vel.selected = s.NavRef ∧
    u.boat_vel.composite = s.CompTracks ∧
    u.raw = t.raw ∧
    u.gps = t.gps ∧
    u.boat_vel.gga_vel = t.boat_vel.gga_vel ∧
    u.boat_vel.vtg_vel = t.boat_vel.vtg_vel := by
  obtain ⟨raw, chk, gps, pm, qep, bv, wv, dp, ed, ex, sn⟩ := t
  obtain ⟨sel, comp, btv, ggav, vtgv, np, cp, gip⟩ := bv
  unfold comp_step nav_step proc_step change_q_ensembles change_nav_reference
    composite_tracks
  cases hP : s.Processing <;>
    (dsimp only
     by_cases h1 : sel = s.NavRef <;> simp [h1] <;> split_ifs <;> simp_all)
end QRev
namespace QRev
theorem bt2_facts (s : Settings) (w : Transect) :
    let b := boat_interpolations_bt s.BTInterpolation (boat_filters (bt_kwargs_of s) w)
    b.boat_vel.bt_vel.d_filter = s.BTdFilter ∧
    (s.BTdFilter = manual →
      b.boat_vel.bt_vel.d_filter_threshold = s.BTdFilterThreshold) ∧
    b.boat_vel.bt_vel.w_filter = s.BTwFilter ∧
    (s.BTwFilter = manual →
      b.boat_vel.bt_vel.w_filter_threshold = s.BTwFilterThreshold) ∧
    (s.BTwFilter ≠ manual →
      b.boat_vel.bt_vel.beam_filter = s.BTbeamFilter ∧
      b.boat_vel.bt_vel.smooth_filter = s.BTsmoothFilter) ∧
    b.boat_vel.bt_vel.filt_proc =
      [b.raw, b.boat_vel.bt_vel.d_filter, b.boat_vel.bt_vel.d_filter_threshold,
       b.boat_vel.bt_vel.w_filter, b.boat_vel.bt_vel.w_filter_threshold,
       b.boat_vel.bt_vel.beam_filter, b.boat_vel.bt_vel.smooth_filter] ∧
    b.boat_vel.bt_vel.interpolate = s.BTInterpolation ∧
    b.boat_vel.bt_vel.interp_proc =
      b.boat_vel.bt_vel.filt_proc ++ [b.boat_vel.bt_vel.interpolate] ∧
    b.raw = w.raw ∧
    b.gps = w.gps ∧
    b.proc_method = w.proc_method ∧
    b.q_ens_proc = w.q_ens_proc ∧
    b.boat_vel.selected = w.boat_vel.selected ∧
    b.boat_vel.composite = w.boat_vel.composite ∧
    b.boat_vel.gga_vel = w.boat_vel.gga_vel ∧
    b.boat_vel.vtg_vel = w.boat_vel.vtg_vel := by
  obtain ⟨raw, chk, gps, pm, qep, bv, wv, dp, ed, ex, sn⟩ := w
  obtain ⟨sel, comp, btv, ggav, vtgv, np, cp, gip⟩ := bv
  unfold boat_interpolations_bt boat_filters bt_kwargs_of
  dsimp only
  refine ⟨?_, ?_, ?_, ?_, ?_, ?_, ?_, ?_, rfl, rfl, rfl, rfl, rfl, rfl, rfl, rfl⟩ <;>
    (intros
     first
     | rfl
     | (split_ifs <;> simp_all))
end QRev
namespace QRev
theorem gps_total_pres (s : Settings) (w : Transect) :
    let g := gps_total s w
    g.raw = w.raw ∧
    g.gps = w.gps ∧
    g.proc_method = w.proc_method ∧
    g.q_ens_proc = w.q_ens_proc ∧
    g.boat_vel.selected = w.boat_vel.selected ∧
    g.boat_vel.composite = w.boat_vel.composite ∧
    g.boat_vel.bt_vel = w.boat_vel.bt_vel ∧
    g.w_vel = w.w_vel ∧
    g.depths = w.depths ∧
    g.edges = w.edges := by
  obtain ⟨raw, chk, gps, pm, qep, bv, wv, dp, ed, ex, sn⟩ := w
  obtain ⟨sel, comp, btv, ggav, vtgv, np, cp, gip⟩ := bv
  unfold gps_total
  cases gps <;> cases ggav <;> cases vtgv <;> dsimp only <;>
    exact ⟨rfl, rfl, rfl, rfl, rfl, rfl, rfl, rfl, rfl, rfl⟩

theorem gps_total_conjuncts (s : Settings) (w : Transect)
    (hok : gps_ok s w = true) :
    let u := gps_total s w
    (u.gps = true → ∀ g, u.boat_vel.gga_vel = some g →
      s.ggaDiffQualFilter = some g.gps_diff_qual_filter ∧
      s.ggaAltitudeFilter = some g.gps_altitude_filter ∧
      (g.gps_altitude_filter = manual →
        s.ggaAltitudeFilterChange = some g.gps_altitude_filter_change) ∧
      g.gps_HDOP_filter = s.GPSHDOPFilter ∧
      (s.GPSHDOPFilter = manual →
        g.gps_HDOP_filter_max = s.GPSHDOPFilterMax ∧
        g.gps_HDOP_filter_change = s.GPSHDOPFilterChange) ∧
      g.smooth_filter = s.GPSSmoothFilter ∧
      g.filt_proc = [u.raw, g.gps_diff_qual_filter, g.gps_altitude_filter,
                     g.gps_altitude_filter_change, g.gps_HDOP_filter,
                     g.gps_HDOP_filter_max, g.gps_HDOP_filter_change,
                     g.smooth_filter] ∧
      g.interpolate = s.GPSInterpolation) ∧
    (u.gps = true → ∀ v, u.boat_vel.vtg_vel = some v →
      v.gps_HDOP_filter = s.GPSHDOPFilter ∧
      (s.GPSHDOPFilter = manual →
        v.gps_HDOP_filter_max = s.GPSHDOPFilterMax ∧
        v.gps_HDOP_filter_change = s.GPSHDOPFilterChange) ∧
      v.smooth_filter = s.GPSSmoothFilter ∧
      v.filt_proc = [u.raw, v.gps_HDOP_filter, v.gps_HDOP_filter_max,
                     v.gps_HDOP_filter_change, v.smooth_filter] ∧
      v.interpolate = s.GPSInterpolation) ∧
    (u.gps = true → u.boat_vel.gps_interp_proc = [u.raw, s.GPSInterpolation]) := by
  obtain ⟨raw, chk, gps, pm, qep, bv, wv, dp, ed, ex, sn⟩ := w
  obtain ⟨sel, comp, btv, ggav, vtgv, np, cp, gip⟩ := bv
  unfold gps_ok at hok
  unfold gps_total
  cases gps with
  | false =>
    dsimp only
    exact ⟨fun h => absurd h (by simp), fun h => absurd h (by simp), fun h =>
      absurd h (by simp)⟩
  | true =>
    dsimp only at hok ⊢
    cases ggav with
    | none =>
      cases vtgv with
      | none =>
        refine ⟨?_, ?_, ?_⟩ <;> (intro h; simp_all)
      | some v =>
        refine ⟨?_, ?_, ?_⟩ <;>
          (intro h
           first
           | (intro x hx
              simp only [Option.map_some', Option.map_none', Option.some.injEq] at hx ⊢
              try cases hx
              simp_all)
           | simp_all)
    | some g =>
      simp only [Option.isSome_some, Bool.true_and, Bool.not_true, Bool.false_or] at hok
      have hdq : s.ggaDiffQualFilter.isSome = true := by
        rcases hok' : s.ggaDiffQualFilter with _ | x
        · rw [hok'] at hok; simp at hok
        · rfl
      have haf : s.ggaAltitudeFilter.isSome = true := by
        rcases hok' : s.ggaAltitudeFilter with _ | x
        · rw [hok'] at hok; simp at hok
        · rfl
      obtain ⟨dq, hdq⟩ := Option.isSome_iff_exists.mp hdq
      obtain ⟨af, haf⟩ := Option.isSome_iff_exists.mp haf
      cases vtgv with
      | none =>
        by_cases hman : af = manual
        · have hath : s.ggaAltitudeFilterChange.isSome = true := by
            rw [hdq, haf, hman] at hok
            simpa using hok
          obtain ⟨ath, hath⟩ := Option.isSome_iff_exists.mp hath
          refine ⟨?_, ?_, ?_⟩ <;>
            (intro h
             try intro x hx
             try cases hx
             try simp_all)
        · refine ⟨?_, ?_, ?_⟩ <;>
            (intro h
             try intro x hx
             try cases hx
             try simp_all)
      | some v =>
        by_cases hman : af = manual
        · have hath : s.ggaAltitudeFilterChange.isSome = true := by
            rw [hdq, haf, hman] at hok
            simpa using hok
          obtain ⟨ath, hath⟩ := Option.isSome_iff_exists.mp hath
          refine ⟨?_, ?_, ?_⟩ <;>
            (intro h
             try intro x hx
             try cases hx
             try simp_all)
        · refine ⟨?_, ?_, ?_⟩ <;>
            (intro h
             try intro x hx
             try cases hx
             try simp_all)
end QRev
namespace QRev
theorem post4_facts (s : Settings) (u : Transect) :
    let e := set_edge_methods s (wt_apply_filter s (process_depths s
      (set_depth_reference s.depthReference u)))
    e.depths.selected = s.depthReference ∧
    e.depths.composite = s.depthComposite ∧
    e.depths.bt_depths = { filter_type := s.depthFilterType
                           avg_method := s.depthAvgMethod
                           valid_data_method := s.depthValidMethod
                           interp_type := s.depthInterpolation } ∧
    (∀ d, e.depths.vb_depths = some d →
      d = { filter_type := s.depthFilterType, avg_method := s.depthAvgMethod,
            valid_data_method := s.depthValidMethod,
            interp_type := s.depthInterpolation }) ∧
    (∀ d, e.depths.ds_depths = some d →
      d = { filter_type := s.depthFilterType, avg_method := s.depthAvgMethod,
            valid_data_method := s.depthValidMethod,
            interp_type := s.depthInterpolation }) ∧
    e.depths.proc = [e.raw, e.depths.selected, e.depths.bt_depths.filter_type,
                     e.depths.bt_depths.interp_type, e.depths.composite,
                     e.depths.bt_depths.avg_method,
                     e.depths.bt_depths.valid_data_method] ∧
    e.w_vel.d_filter = s.WTdFilter ∧
    (s.WTdFilter = manual → e.w_vel.d_filter_threshold = s.WTdFilterThreshold) ∧
    e.w_vel.w_filter = s.WTwFilter ∧
    (s.WTwFilter = manual → e.w_vel.w_filter_threshold = s.WTwFilterThreshold) ∧
    e.w_vel.beam_filter = s.WTbeamFilter ∧
    e.w_vel.smooth_filter = s.WTsmoothFilter ∧
    e.w_vel.snr_filter = s.WTsnrFilter ∧
    e.w_vel.wt_depth_filter = s.WTwtDepthFilter ∧
    e.w_vel.excluded_dist_m = s.WTExcludedDistance ∧
    e.w_vel.filt_proc =
      [e.raw, e.w_vel.d_filter, e.w_vel.d_filter_threshold, e.w_vel.w_filter,
       e.w_vel.w_filter_threshold, e.w_vel.beam_filter, e.w_vel.smooth_filter,
       e.w_vel.snr_filter, e.w_vel.wt_depth_filter, e.w_vel.excluded_dist_m] ++
      e.depths.proc ∧
    e.edges = { vel_method := s.edgeVelMethod
                rec_edge_method := s.edgeRecEdgeMethod } ∧
    e.raw = u.raw ∧
    e.gps = u.gps ∧
    e.proc_method = u.proc_method ∧
    e.q_ens_proc = u.q_ens_proc ∧
    e.boat_vel = u.boat_vel ∧
    e.w_vel.interpolate_ens = u.w_vel.interpolate_ens ∧
    e.w_vel.interpolate_cells = u.w_vel.interpolate_cells ∧
    e.w_vel.interp_proc = u.w_vel.interp_proc ∧
    e.extrap = u.extrap := by
  obtain ⟨raw, chk, gps, pm, qep, bv, wv, dp, ed, ex, sn⟩ := u
  obtain ⟨dsel, dcomp, btd, vbd, dsd, dproc⟩ := dp
  cases wv
  unfold set_edge_methods wt_apply_filter process_depths set_depth_reference
  dsimp only
  refine ⟨rfl, rfl, rfl, ?_, ?_, rfl, rfl, ?_, rfl, ?_, rfl, rfl, rfl, rfl, rfl,
    rfl, rfl, rfl, rfl, rfl, rfl, rfl, rfl, rfl, rfl, rfl⟩ <;>
    (intros
     first
     | rfl
     | (split_ifs <;> simp_all)
     | simp_all)
end QRev
namespace QRev
theorem gps_ok_pre (s : Settings) (t : Transect) :
    gps_ok s (boat_interpolations_bt s.BTInterpolation (boat_filters (bt_kwargs_of s)
      (comp_step s (nav_step s (proc_step s t))))) = gps_ok s t := by
  unfold gps_ok
  simp

theorem transect_pipeline_reapplies (s : Settings) (t : Transect)
    (hok : gps_ok s t = true) :
    reapplies s (transect_pipeline s t) := by
  obtain ⟨hproc0, hsel0, hcomp0, hraw0, hgps0, hgga0, hvtg0⟩ := pre3_facts s t
  obtain ⟨b1, b2, b3, b4, b5, b6, b7, b8, braw, bgps, bpm, bqep, bsel, bcomp,
    bgga, bvtg⟩ := bt2_facts s (comp_step s (nav_step s (proc_step s t)))
  have hokB : gps_ok s (boat_interpolations_bt s.BTInterpolation (boat_filters
      (bt_kwargs_of s) (comp_step s (nav_step s (proc_step s t))))) = true := by
    rw [gps_ok_pre]
    exact hok
  obtain ⟨g12, g13, g14⟩ := gps_total_conjuncts s _ hokB
  obtain ⟨praw, pgps, ppm, pqep, psel, pcomp, pbt, pwv, pdp, ped⟩ :=
    gps_total_pres s (boat_interpolations_bt s.BTInterpolation (boat_filters
      (bt_kwargs_of s) (comp_step s (nav_step s (proc_step s t)))))
  obtain ⟨e15, e16, e17, e18, e19, e20, e21, e22, e23, e24, e25, e26, e27, e28,
    e29, e30, e31, eraw, egps, epm, eqep, ebv, _, _, _, _⟩ :=
    post4_facts s (gps_total s (boat_interpolations_bt s.BTInterpolation
      (boat_filters (bt_kwargs_of s) (comp_step s (nav_step s (proc_step s t))))))
  unfold transect_pipeline reapplies
  refine ⟨?_, ?_, ?_, ?_, ?_, ?_, ?_, ?_, ?_, ?_, ?_, ?_, ?_, ?_,
    e15, e16, e17, e18, e19, e20, e21, e22, e23, e24, e25, e26, e27, e28, e29,
    e30, e31⟩
  · intro p hp
    have h0 := hproc0 p hp
    refine ⟨by rw [epm, ppm, bpm, h0.1], ?_⟩
    rw [epm, ppm, bpm, eqep, pqep, bqep, eraw, praw, braw, h0.2]
  · rw [ebv, psel, bsel, hsel0]
  · rw [ebv, pcomp, bcomp, hcomp0]
  · rw [ebv, pbt]
    exact b1
  · rw [ebv, pbt]
    exact b2
  · rw [ebv, pbt]
    exact b3
  · rw [ebv, pbt]
    exact b4
  · rw [ebv, pbt]
    exact b5
  · rw [ebv, pbt, eraw, praw]
    exact b6
  · rw [ebv, pbt]
    exact b7
  · rw [ebv, pbt]
    exact b8
  · rw [egps, ebv, eraw]
    exact g12
  · rw [egps, ebv, eraw]
    exact g13
  · rw [egps, ebv, eraw]
    exact g14
end QRev
namespace QRev
theorem transect_pipeline_fixpoint (s : Settings) (t : Transect)
    (h : reapplies s t) : transect_pipeline s t = t := by
  obtain ⟨hproc, hnav, hcomp, hbtd, hbtdth, hbtw, hbtwth, hbeam, hbtfp, hbti,
    hbtip, hgga, hvtg, hgip, hdsel, hdcomp, hdbt, hdvb, hdds, hdproc, hwtd,
    hwtdth, hwtw, hwtwth, hwtbeam, hwtsmooth, hwtsnr, hwtdepth, hwtexcl, hwtfp,
    hedges⟩ := h
  unfold transect_pipeline
  rw [proc_step_fix s t hproc, nav_step_fix s t hnav, comp_step_fix s t hcomp,
      boat_filters_fix s t hbtd hbtdth hbtw hbtwth hbeam hbtfp,
      boat_interpolations_bt_fix s t hbti hbtip,
      gps_total_fix s t hgga hvtg hgip,
      set_depth_reference_fix s t hdsel,
      process_depths_fix s t hdcomp hdbt hdvb hdds hdproc,
      wt_apply_filter_fix s t hwtd hwtdth hwtw hwtwth hwtbeam hwtsmooth hwtsnr
        hwtdepth hwtexcl hwtfp,
      set_edge_methods_fix s t hedges]

theorem gps_ok_of_reapplies (s : Settings) (t : Transect)
    (h : reapplies s t) : gps_ok s t = true := by
  obtain ⟨-, -, -, -, -, -, -, -, -, -, -, hgga, -, -⟩ := h
  unfold gps_ok
  cases hgps : t.gps with
  | false => simp
  | true =>
    cases hgv : t.boat_vel.gga_vel with
    | none => simp
    | some g =>
      obtain ⟨g1, g2, g3, -, -, -, -, -⟩ := hgga hgps g hgv
      rw [g1, g2]
      by_cases hman : g.gps_altitude_filter = manual
      · rw [hman] at g3 ⊢
        rw [g3 rfl]
        simp
      · simp only [Option.isSome_some, Bool.true_and, Bool.not_true]
        have : ¬ (some g.gps_altitude_filter = some manual) := by
          simp [hman]
        rw [if_neg this]
        simp

theorem reapplies_set_vol (s : Settings) (t : Transect)
    (e1 e2 e3 w1 w2 : SV) (wp : List SV) (h : reapplies s t) :
    reapplies s (set_vol e1 e2 e3 w1 w2 wp t) := h
end QRev
namespace QRev
theorem list_map_id_of {α : Type} (f : α → α) (l : List α)
    (h : ∀ x ∈ l, f x = x) : l.map f = l := by
  induction l with
  | nil => rfl
  | cons a l ih =>
    simp only [List.map_cons, List.cons.injEq]
    exact ⟨h a (by simp), ih (fun x hx => h x (by simp [hx]))⟩

theorem loop_mb_fixpoint (s : Settings) (ts : List Transect)
    (mb : List MovingBedTest)
    (h : ∀ t ∈ ts, t.boat_vel.selected = s.NavRef) :
    loop_mb s ts mb = mb := by
  induction ts generalizing mb with
  | nil => rfl
  | cons a l ih =>
    unfold loop_mb
    simp only [List.foldl_cons]
    rw [mb_upd_fix s a mb (h a (by simp))]
    exact ih mb (fun x hx => h x (by simp [hx]))

theorem apply_settings_loop_fixpoint (s : Settings) (ts : List Transect)
    (mb : List MovingBedTest) (h : ∀ t ∈ ts, reapplies s t) :
    apply_settings_loop s ts mb = .ok (ts, mb) := by
  rw [apply_settings_loop_eq]
  have hall : ts.all (fun t => gps_ok s t) = true := by
    rw [List.all_eq_true]
    intro t ht
    exact gps_ok_of_reapplies s t (h t ht)
  rw [if_pos hall]
  have hmap : ts.map (transect_pipeline s) = ts :=
    list_map_id_of _ ts (fun t ht => transect_pipeline_fixpoint s t (h t ht))
  have hmb : loop_mb s ts mb = mb :=
    loop_mb_fixpoint s ts mb (fun t ht => (h t ht).2.1)
  rw [hmap, hmb]

theorem set_extrap_data_fix (a b c : SV) (t : Transect)
    (h : t.extrap = { top_method := a, bot_method := b, exponent := c }) :
    set_extrap_data a b c t = t := by
  obtain ⟨raw, chk, gps, pm, qep, bv, wv, dp, ed, ex, sn⟩ := t
  unfold set_extrap_data
  simp_all

theorem wt_apply_interpolation_fix (s : Settings) (t : Transect)
    (h1 : t.w_vel.interpolate_ens = s.WTEnsInterpolation)
    (h2 : t.w_vel.interpolate_cells = s.WTCellInterpolation)
    (h3 : t.w_vel.interp_proc =
      [t.raw, s.WTEnsInterpolation, s.WTCellInterpolation, t.extrap.top_method,
       t.extrap.bot_method, t.extrap.exponent] ++ t.w_vel.filt_proc) :
    wt_apply_interpolation s t = t := by
  obtain ⟨raw, chk, gps, pm, qep, bv, wv, dp, ed, ex, sn⟩ := t
  cases wv
  unfold wt_apply_interpolation
  simp_all

theorem fit_dep_congr (f : Transect → Transect) (ts : List Transect)
    (h : ∀ t ∈ ts, (f t).raw = t.raw ∧ (f t).w_vel.filt_proc = t.w_vel.filt_proc ∧
      (f t).depths.proc = t.depths.proc) :
    fit_dep (ts.map f) = fit_dep ts := by
  unfold fit_dep
  rw [List.map_map]
  congr 1
  apply List.map_congr_left
  intro t ht
  obtain ⟨h1, h2, h3⟩ := h t ht
  simp [h1, h2, h3]

theorem auto_fit_congr (f : Transect → Transect) (ts : List Transect)
    (h : ∀ t ∈ ts, (f t).raw = t.raw ∧ (f t).w_vel.filt_proc = t.w_vel.filt_proc ∧
      (f t).depths.proc = t.depths.proc) :
    auto_fit (ts.map f) = auto_fit ts := by
  unfold auto_fit
  rw [fit_dep_congr f ts h]
end QRev
namespace QRev
theorem sv_auto_ne_manual : (SV.str "Automatic") ≠ manual := by decide

theorem extrap_first (fitOpt : Option ComputeExtrapFit) (ts : List Transect)
    (s : Settings) (fit1 : ComputeExtrapFit) (ts2 : List Transect) (s1 : Settings)
    (hTop : s.extrapTop.isSome = true)
    (hE : apply_settings_extrap fitOpt ts s = .ok (fit1, ts2, s1)) :
    s1 = s ∧
    (∃ dt, fit1.norm_data_type = some dt) ∧
    ts2 = ts.map (set_extrap_data fit1.sel_top fit1.sel_bot fit1.sel_exp) ∧
    ((fit1.fit_method = .str "Automatic" ∧
      fit1.sel_top = (auto_fit ts).1 ∧ fit1.sel_bot = (auto_fit ts).2.1 ∧
      fit1.sel_exp = (auto_fit ts).2.2) ∨
     (fit1.fit_method = manual ∧
      (ts = [] ∨ (s.extrapTop = some fit1.sel_top ∧
        s.extrapBot = some fit1.sel_bot ∧ s.extrapExp = some fit1.sel_exp)))) := by
  obtain ⟨top0, hTop0⟩ := Option.isSome_iff_exists.mp hTop
  cases fitOpt with
  | none =>
    unfold apply_settings_extrap change_extrapolation compute_extrap_populate at hE
    try dsimp only at hE
    rw [if_neg sv_auto_ne_manual] at hE
    unfold process_profiles at hE
    try dsimp only at hE
    rw [if_neg sv_auto_ne_manual] at hE
    simp only [Except.ok.injEq, Prod.mk.injEq] at hE
    obtain ⟨hf, ht, hs⟩ := hE
    subst hf
    subst ht
    subst hs
    refine ⟨rfl, ⟨.str "q", rfl⟩, rfl, Or.inl ⟨rfl, rfl, rfl, rfl⟩⟩
  | some fit =>
    unfold apply_settings_extrap at hE
    try dsimp only at hE
    by_cases hAuto : fit.fit_method = .str "Automatic"
    · rw [if_pos hAuto] at hE
      unfold change_extrapolation at hE
      try dsimp only at hE
      rw [hAuto, if_neg sv_auto_ne_manual] at hE
      unfold process_profiles at hE
      try dsimp only at hE
      rw [if_neg sv_auto_ne_manual] at hE
      simp only [Except.ok.injEq, Prod.mk.injEq] at hE
      obtain ⟨hf, ht, hs⟩ := hE
      subst hf
      subst ht
      subst hs
      exact ⟨rfl, ⟨_, rfl⟩, rfl, Or.inl ⟨rfl, rfl, rfl, rfl⟩⟩
    · rw [if_neg hAuto] at hE
      try dsimp only at hE
      rw [if_pos hTop] at hE
      rw [hTop0] at hE
      cases hBot : s.extrapBot with
      | none =>
        rw [hBot] at hE
        try dsimp only at hE
        cases hE
      | some bot0 =>
        rw [hBot] at hE
        cases hExp : s.extrapExp with
        | none =>
          rw [hExp] at hE
          try dsimp only at hE
          cases hE
        | some exp0 =>
          rw [hExp] at hE
          try dsimp only at hE
          unfold change_extrapolation at hE
          try dsimp only at hE
          by_cases hman : fit.fit_method = manual
          · rw [if_pos hman] at hE
            unfold process_profiles at hE
            try dsimp only at hE
            rw [if_pos rfl] at hE
            rw [List.getLast?_map] at hE
            cases hgl : ts.getLast? with
            | none =>
              have hnil : ts = [] := List.getLast?_eq_none_iff.mp hgl
              rw [hgl] at hE
              dsimp only [Option.map_none'] at hE
              simp only [Except.ok.injEq, Prod.mk.injEq] at hE
              obtain ⟨hf, ht, hs⟩ := hE
              subst hf
              subst ht
              subst hs
              subst hnil
              exact ⟨rfl, ⟨_, rfl⟩, rfl, Or.inr ⟨rfl, Or.inl rfl⟩⟩
            | some tl =>
              rw [hgl] at hE
              dsimp only [Option.map_some'] at hE
              unfold set_extrap_data at hE
              try dsimp only at hE
              simp only [Except.ok.injEq, Prod.mk.injEq] at hE
              obtain ⟨hf, ht, hs⟩ := hE
              subst hf
              subst ht
              subst hs
              refine ⟨rfl, ⟨_, rfl⟩, ?_, Or.inr ⟨rfl, Or.inr ⟨hTop0, rfl, rfl⟩⟩⟩
              rfl
          · rw [if_neg hman] at hE
            unfold process_profiles at hE
            try dsimp only at hE
            rw [if_neg sv_auto_ne_manual] at hE
            simp only [Except.ok.injEq, Prod.mk.injEq] at hE
            obtain ⟨hf, ht, hs⟩ := hE
            subst hf
            subst ht
            subst hs
            exact ⟨rfl, ⟨_, rfl⟩, rfl, Or.inl ⟨rfl, rfl, rfl, rfl⟩⟩
end QRev
namespace QRev
theorem mem_of_getLast?_eq {α : Type} {l : List α} {a : α}
    (h : l.getLast? = some a) : a ∈ l := by
  obtain ⟨hne, heq⟩ := List.mem_getLast?_eq_getLast
    (show a ∈ l.getLast? by rw [h]; rfl)
  rw [heq]
  exact List.getLast_mem hne

theorem sv_manual_ne_auto : manual ≠ (SV.str "Automatic") := by decide

theorem extrap_rerun (s : Settings) (fit2 : ComputeExtrapFit) (ts3 : List Transect)
    (hTop : s.extrapTop.isSome = true) (hBot : s.extrapBot.isSome = true)
    (hExp : s.extrapExp.isSome = true)
    (hndt : ∃ dt, fit2.norm_data_type = some dt)
    (hext : ∀ t ∈ ts3, t.extrap =
      { top_method := fit2.sel_top, bot_method := fit2.sel_bot,
        exponent := fit2.sel_exp })
    (hMethod : (fit2.fit_method = .str "Automatic" ∧
        fit2.sel_top = (auto_fit ts3).1 ∧ fit2.sel_bot = (auto_fit ts3).2.1 ∧
        fit2.sel_exp = (auto_fit ts3).2.2) ∨
      (fit2.fit_method = manual ∧
        (ts3 = [] ∨ (s.extrapTop = some fit2.sel_top ∧
          s.extrapBot = some fit2.sel_bot ∧ s.extrapExp = some fit2.sel_exp)))) :
    apply_settings_extrap (some fit2) ts3 s = .ok (fit2, ts3, s) := by
  obtain ⟨dt, hdt⟩ := hndt
  obtain ⟨fm, st, sb, se, ndt0, sub, thr, qs⟩ := fit2
  try dsimp only at hdt hext hMethod ⊢
  subst hdt
  rcases hMethod with ⟨hM, hT, hB, hX2⟩ | ⟨hM, hrest⟩
  · try dsimp only at hM hT hB hX2
    subst hM
    subst hT
    subst hB
    subst hX2
    unfold apply_settings_extrap
    dsimp only
    rw [if_pos rfl]
    unfold change_extrapolation
    dsimp only
    rw [if_neg sv_auto_ne_manual]
    unfold process_profiles
    dsimp only
    rw [if_neg sv_auto_ne_manual]
    dsimp only
    have hmap : ts3.map (set_extrap_data (auto_fit ts3).1 (auto_fit ts3).2.1
        (auto_fit ts3).2.2) = ts3 := by
      apply list_map_id_of
      intro t ht
      exact set_extrap_data_fix _ _ _ t (hext t ht)
    rw [hmap]
    rfl
  · subst hM
    unfold apply_settings_extrap
    dsimp only
    rw [if_neg sv_manual_ne_auto]
    rw [if_pos hTop]
    obtain ⟨top0, hT0⟩ := Option.isSome_iff_exists.mp hTop
    obtain ⟨bot0, hB0⟩ := Option.isSome_iff_exists.mp hBot
    obtain ⟨exp0, hX0⟩ := Option.isSome_iff_exists.mp hExp
    rw [hT0, hB0, hX0]
    dsimp only
    unfold change_extrapolation
    dsimp only
    rw [if_pos rfl]
    unfold process_profiles
    dsimp only
    rw [if_pos rfl]
    rcases hrest with hnil | ⟨he1, he2, he3⟩
    · subst hnil
      rfl
    · rw [hT0] at he1
      rw [hB0] at he2
      rw [hX0] at he3
      have h1 : top0 = st := Option.some.inj he1
      have h2 : bot0 = sb := Option.some.inj he2
      have h3 : exp0 = se := Option.some.inj he3
      subst h1
      subst h2
      subst h3
      have hmap : ts3.map (set_extrap_data ((some top0).getD top0)
          ((some bot0).getD bot0) ((some exp0).getD exp0)) = ts3 := by
        apply list_map_id_of
        intro t ht
        exact set_extrap_data_fix _ _ _ t (hext t ht)
      rw [hmap]
      cases hgl : ts3.getLast? with
      | none => rfl
      | some tl =>
        dsimp only
        rw [hext tl (mem_of_getLast?_eq hgl)]
        rfl
end QRev
namespace QRev
theorem reapplies_set_extrap (s : Settings) (t : Transect) (a b c : SV)
    (h : reapplies s t) : reapplies s (set_extrap_data a b c t) := h

theorem reapplies_wt_interp (s s' : Settings) (t : Transect)
    (h : reapplies s t) : reapplies s (wt_apply_interpolation s' t) := h

theorem wt_apply_interpolation_idem (s : Settings) (t : Transect) :
    wt_apply_interpolation s (wt_apply_interpolation s t) =
      wt_apply_interpolation s t := by
  obtain ⟨raw, chk, gps, pm, qep, bv, wv, dp, ed, ex, sn⟩ := t
  cases wv
  rfl

theorem wt_interp_preserves (s : Settings) (t : Transect) :
    (wt_apply_interpolation s t).raw = t.raw ∧
    (wt_apply_interpolation s t).w_vel.filt_proc = t.w_vel.filt_proc ∧
    (wt_apply_interpolation s t).depths.proc = t.depths.proc :=
  ⟨rfl, rfl, rfl⟩

theorem set_extrap_preserves (a b c : SV) (t : Transect) :
    (set_extrap_data a b c t).raw = t.raw ∧
    (set_extrap_data a b c t).w_vel.filt_proc = t.w_vel.filt_proc ∧
    (set_extrap_data a b c t).depths.proc = t.depths.proc :=
  ⟨rfl, rfl, rfl⟩
end QRev
namespace QRev
/-- Claim C1: applying a fully populated settings snapshot twice in
immediate succession is idempotent — a second `apply_settings` with the
same snapshot returns exactly the measurement produced by the first
(per-transect discharges and the aggregate uncertainty included) and
hands the snapshot back unchanged. -/
theorem C1_apply_settings_idempotent (m : Measurement) (s : Settings)
    (p : Measurement × Settings)
    (hfull : fully_populated s)
    (h1 : apply_settings m s = .ok p) :
    apply_settings p.1 s = .ok (p.1, s) := by
  obtain ⟨hP, hTop, hBot, hExp, -, -, -, -, -⟩ := hfull
  obtain ⟨m1, s1⟩ := p
  dsimp only
  unfold apply_settings at h1
  rw [apply_settings_loop_eq] at h1
  by_cases hall : m.transects.all (fun t => gps_ok s t) = true
  · rw [if_pos hall] at h1
    dsimp only at h1
    cases hE : apply_settings_extrap m.extrap_fit
        (m.transects.map (transect_pipeline s)) s with
    | error e =>
      rw [hE] at h1
      dsimp only at h1
      exact absurd h1 (by simp)
    | ok trip =>
      obtain ⟨fit1, trip2⟩ := trip
      obtain ⟨ts2, s1x⟩ := trip2
      rw [hE] at h1
      dsimp only at h1
      obtain ⟨hs1s, hndt, hts2, hmeth⟩ :=
        extrap_first m.extrap_fit _ s fit1 ts2 s1x hTop hE
      have hs1s' := hs1s.symm
      subst hs1s'
      simp only [Except.ok.injEq, Prod.mk.injEq] at h1
      obtain ⟨hm1, hs1⟩ := h1
      subst hs1
      subst hm1
      have hre1 : ∀ t ∈ m.transects.map (transect_pipeline s), reapplies s t := by
        intro t ht
        obtain ⟨u, hu, rfl⟩ := List.mem_map.mp ht
        exact transect_pipeline_reapplies s u (List.all_eq_true.mp hall u hu)
      have hre2 : ∀ t ∈ ts2, reapplies s t := by
        intro t ht
        rw [hts2] at ht
        obtain ⟨u, hu, rfl⟩ := List.mem_map.mp ht
        exact reapplies_set_extrap s u _ _ _ (hre1 u hu)
      have hre3 : ∀ t ∈ ts2.map (wt_apply_interpolation s), reapplies s t := by
        intro t ht
        obtain ⟨u, hu, rfl⟩ := List.mem_map.mp ht
        exact reapplies_wt_interp s s u (hre2 u hu)
      have hext3 : ∀ t ∈ ts2.map (wt_apply_interpolation s),
          t.extrap = { top_method := fit1.sel_top, bot_method := fit1.sel_bot,
                       exponent := fit1.sel_exp } := by
        intro t ht
        obtain ⟨u, hu, rfl⟩ := List.mem_map.mp ht
        rw [hts2] at hu
        obtain ⟨v, hv, rfl⟩ := List.mem_map.mp hu
        rfl
      have hauto : auto_fit (ts2.map (wt_apply_interpolation s)) =
          auto_fit (m.transects.map (transect_pipeline s)) := by
        rw [auto_fit_congr (wt_apply_interpolation s) ts2
              (fun t _ => wt_interp_preserves s t), hts2,
            auto_fit_congr _ _ (fun t _ => set_extrap_preserves _ _ _ t)]
      have hmeth3 : (fit1.fit_method = .str "Automatic" ∧
          fit1.sel_top = (auto_fit (ts2.map (wt_apply_interpolation s))).1 ∧
          fit1.sel_bot = (auto_fit (ts2.map (wt_apply_interpolation s))).2.1 ∧
          fit1.sel_exp = (auto_fit (ts2.map (wt_apply_interpolation s))).2.2) ∨
          (fit1.fit_method = manual ∧
            (ts2.map (wt_apply_interpolation s) = [] ∨
             (s.extrapTop = some fit1.sel_top ∧ s.extrapBot = some fit1.sel_bot ∧
              s.extrapExp = some fit1.sel_exp))) := by
        rcases hmeth with ⟨hA, h1t, h1b, h1e⟩ | ⟨hMan, hrest⟩
        · left
          rw [hauto]
          exact ⟨hA, h1t, h1b, h1e⟩
        · right
          refine ⟨hMan, ?_⟩
          rcases hrest with hnil | htrip
          · left
            rw [hts2, hnil]
            rfl
          · exact Or.inr htrip
      have hall3 : (ts2.map (wt_apply_interpolation s)).all
          (fun t => gps_ok s t) = true := by
        rw [List.all_eq_true]
        intro t ht
        exact gps_ok_of_reapplies s t (hre3 t ht)
      have hmap3 : (ts2.map (wt_apply_interpolation s)).map (transect_pipeline s) =
          ts2.map (wt_apply_interpolation s) :=
        list_map_id_of _ _ (fun t ht => transect_pipeline_fixpoint s t (hre3 t ht))
      have hmb3 : loop_mb s (ts2.map (wt_apply_interpolation s))
          (loop_mb s m.transects m.mb_tests) = loop_mb s m.transects m.mb_tests :=
        loop_mb_fixpoint s _ _ (fun t ht => (hre3 t ht).2.1)
      have hrerun := extrap_rerun s
        { fit1 with q_sensitivity := some (ts2.map (wt_apply_interpolation s),
            (fit1.sel_top, fit1.sel_bot, fit1.sel_exp)) }
        (ts2.map (wt_apply_interpolation s)) hTop hBot hExp hndt hext3 hmeth3
      have hwtai : (ts2.map (wt_apply_interpolation s)).map
          (wt_apply_interpolation s) = ts2.map (wt_apply_interpolation s) := by
        apply list_map_id_of
        intro t ht
        obtain ⟨u, hu, rfl⟩ := List.mem_map.mp ht
        exact wt_apply_interpolation_idem s u
      obtain ⟨p0, hp0⟩ := Option.isSome_iff_exists.mp hP
      have hemp : (ts2.map (wt_apply_interpolation s)).isEmpty =
          m.transects.isEmpty := by
        rw [hts2]
        cases h' : m.transects
        · rfl
        · rfl
      unfold apply_settings
      dsimp only
      rw [apply_settings_loop_eq]
      rw [if_pos hall3]
      dsimp only
      rw [hmap3, hmb3, hrerun]
      dsimp only
      rw [hwtai]
      rw [hp0]
      dsimp only
      rw [hemp]
      cases h'' : m.transects.isEmpty
      · rfl
      · rfl
  · rw [if_neg hall] at h1
    dsimp only at h1
    exact absurd h1 (by simp)
end QRev
namespace QRev
/-- Witness for claim C1 at a concrete two-transect measurement. -/
theorem C1_witness : fully_populated exSettings ∧
    apply_settings exMeas exSettings = .ok exApplied ∧
    apply_settings exApplied.1 exSettings = .ok (exApplied.1, exSettings) :=
  ⟨by decide, rfl,
   C1_apply_settings_idempotent exMeas exSettings exApplied (by decide) rfl⟩
end QRev
namespace QRev
theorem mem_of_get?_eq {α : Type} {l : List α} {n : Nat} {a : α}
    (h : l.get? n = some a) : a ∈ l := by
  have := List.get?_eq_some.mp h
  obtain ⟨hlt, heq⟩ := this
  rw [← heq]
  exact List.get_mem l n hlt

theorem current_settings_inv (m1 : Measurement) (s0 : Settings)
    (hcs : current_settings m1 = .ok s0) :
    ∃ tc, m1.transects.get? (first_checked_idx m1) = some tc ∧
      s0.Processing = none ∧
      s0.extrapTop = some (match m1.extrap_fit with
        | some fit => fit.sel_top | none => tc.extrap.top_method) ∧
      s0.extrapBot = some (match m1.extrap_fit with
        | some fit => fit.sel_bot | none => tc.extrap.bot_method) ∧
      s0.extrapExp = some (match m1.extrap_fit with
        | some fit => fit.sel_exp | none => tc.extrap.exponent) ∧
      s0.WTEnsInterpolation = tc.w_vel.interpolate_ens ∧
      s0.WTCellInterpolation = tc.w_vel.interpolate_cells := by
  unfold current_settings at hcs
  cases hget : m1.transects.get? (first_checked_idx m1) with
  | none =>
    rw [hget] at hcs
    exact absurd hcs (by simp)
  | some tc =>
    rw [hget] at hcs
    dsimp only at hcs
    cases hsel : get_depth_src tc.depths tc.depths.selected with
    | none =>
      rw [hsel] at hcs
      exact absurd hcs (by simp)
    | some seld =>
      rw [hsel] at hcs
      dsimp only at hcs
      have hrec := Except.ok.inj hcs
      subst hrec
      exact ⟨tc, rfl, rfl, rfl, rfl, rfl, rfl, rfl⟩
end QRev
namespace QRev
theorem if_bool_pos {α : Sort _} {b : Bool} (h : b = true) (x y : α) :
    (if b then x else y) = x := by
  subst h
  rfl

theorem captured_reapplies (s s0 : Settings) (m1 : Measurement)
    (hcs : current_settings m1 = .ok s0)
    (hre : ∀ u ∈ m1.transects, reapplies s u)
    (huni : gps_uniform m1) :
    ∀ t ∈ m1.transects, reapplies s0 t := by
  unfold current_settings at hcs
  unfold gps_uniform at huni
  cases hget : m1.transects.get? (first_checked_idx m1) with
  | none =>
    rw [hget] at hcs
    exact absurd hcs (by simp)
  | some tc =>
    rw [hget] at hcs huni
    dsimp only at hcs huni
    cases hsel : get_depth_src tc.depths tc.depths.selected with
    | none =>
      rw [hsel] at hcs
      exact absurd hcs (by simp)
    | some seld =>
      rw [hsel] at hcs
      dsimp only at hcs
      have hrec0 := Except.ok.inj hcs
      subst hrec0
      have htcmem : tc ∈ m1.transects := mem_of_get?_eq hget
      obtain ⟨rcproc, rcnav, rccomp, rcbtd, rcbtdth, rcbtw, rcbtwth, rcbeam,
        rcbtfp, rcbti, rcbtip, rcgga, rcvtg, rcgip, rcdsel, rcdcomp, rcdbt,
        rcdvb, rcdds, rcdproc, rcwtd, rcwtdth, rcwtw, rcwtwth, rcwtbeam,
        rcwtsmooth, rcwtsnr, rcwtdepth, rcwtexcl, rcwtfp, rcedges⟩ :=
        hre tc htcmem
      have hsrc_tc := (huni tc htcmem).2.2.2
      have h1 : tc.depths.bt_depths.filter_type = s.depthFilterType :=
        congrArg DepthData.filter_type rcdbt
      have h2 : tc.depths.bt_depths.avg_method = s.depthAvgMethod :=
        congrArg DepthData.avg_method rcdbt
      have h3 : tc.depths.bt_depths.valid_data_method = s.depthValidMethod :=
        congrArg DepthData.valid_data_method rcdbt
      have hseld_interp : seld.interp_type = s.depthInterpolation := by
        unfold get_depth_src at hsel
        by_cases hb : tc.depths.selected = .str "bt_depths"
        · rw [if_pos hb] at hsel
          have hbt := Option.some.inj hsel
          rw [← hbt]
          exact congrArg DepthData.interp_type rcdbt
        · rw [if_neg hb] at hsel
          by_cases hv : tc.depths.selected = .str "vb_depths"
          · rw [if_pos hv] at hsel
            exact congrArg DepthData.interp_type (rcdvb seld hsel)
          · rw [if_neg hv] at hsel
            by_cases hd : tc.depths.selected = .str "ds_depths"
            · rw [if_pos hd] at hsel
              exact congrArg DepthData.interp_type (rcdds seld hsel)
            · rw [if_neg hd] at hsel
              exact absurd hsel (by simp)
      have hdrec :
          ({ filter_type := tc.depths.bt_depths.filter_type,
             avg_method := tc.depths.bt_depths.avg_method,
             valid_data_method := tc.depths.bt_depths.valid_data_method,
             interp_type := seld.interp_type } : DepthData) =
          { filter_type := s.depthFilterType, avg_method := s.depthAvgMethod,
            valid_data_method := s.depthValidMethod,
            interp_type := s.depthInterpolation } := by
        rw [h1, h2, h3, hseld_interp]
      have hedrec :
          ({ vel_method := tc.edges.vel_method,
             rec_edge_method := tc.edges.rec_edge_method } : Edges) =
          { vel_method := s.edgeVelMethod,
            rec_edge_method := s.edgeRecEdgeMethod } := by
        rw [rcedges]
      intro t ht
      obtain ⟨rtproc, rtnav, rtcomp, rtbtd, rtbtdth, rtbtw, rtbtwth, rtbeam,
        rtbtfp, rtbti, rtbtip, rtgga, rtvtg, rtgip, rtdsel, rtdcomp, rtdbt,
        rtdvb, rtdds, rtdproc, rtwtd, rtwtdth, rtwtw, rtwtwth, rtwtbeam,
        rtwtsmooth, rtwtsnr, rtwtdepth, rtwtexcl, rtwtfp, rtedges⟩ :=
        hre t ht
      obtain ⟨hut1, hut2, hut3, hut4⟩ := huni t ht
      unfold reapplies
      dsimp only
      refine ⟨?_, rtnav.trans rcnav.symm, rtcomp.trans rccomp.symm,
        rtbtd.trans rcbtd.symm, ?_, rtbtw.trans rcbtw.symm, ?_, ?_, rtbtfp,
        rtbti.trans rcbti.symm, rtbtip, ?_, ?_, ?_, rtdsel.trans rcdsel.symm,
        rtdcomp.trans rcdcomp.symm, rtdbt.trans hdrec.symm, ?_, ?_, rtdproc,
        rtwtd.trans rcwtd.symm, ?_, rtwtw.trans rcwtw.symm, ?_,
        rtwtbeam.trans rcwtbeam.symm, rtwtsmooth.trans rcwtsmooth.symm,
        rtwtsnr.trans rcwtsnr.symm, rtwtdepth.trans rcwtdepth.symm,
        rtwtexcl.trans rcwtexcl.symm, rtwtfp, rtedges.trans hedrec.symm⟩
      · intro p hp
        exact absurd hp (by simp)
      · intro h
        have hs : s.BTdFilter = manual := rcbtd ▸ h
        exact (rtbtdth hs).trans (rcbtdth hs).symm
      · intro h
        have hs : s.BTwFilter = manual := rcbtw ▸ h
        exact (rtbtwth hs).trans (rcbtwth hs).symm
      · intro h
        have hs : s.BTwFilter ≠ manual := fun hc => h (rcbtw.trans hc)
        obtain ⟨hb1, hs1⟩ := rtbeam hs
        obtain ⟨hb2, hs2⟩ := rcbeam hs
        exact ⟨hb1.trans hb2.symm, hs1.trans hs2.symm⟩
      · intro hgps g hg
        have htcgps : tc.gps = true := hut1 ▸ hgps
        have hgsome : tc.boat_vel.gga_vel.isSome = true := by
          rw [← hut2, hg]
          rfl
        obtain ⟨gc, hgc⟩ := Option.isSome_iff_exists.mp hgsome
        obtain ⟨c1, c2, c3, c4, c5, c6, c7, c8⟩ := rcgga htcgps gc hgc
        obtain ⟨d1, d2, d3, d4, d5, d6, d7, d8⟩ := rtgga hgps g hg
        refine ⟨?_, ?_, ?_, ?_, ?_, ?_, d7, ?_⟩
        · rw [if_bool_pos htcgps, hgc]
          exact c1.symm.trans d1
        · rw [if_bool_pos htcgps, hgc]
          exact c2.symm.trans d2
        · intro hman
          rw [if_bool_pos htcgps, hgc]
          have hgcman : gc.gps_altitude_filter = manual := by
            have hga := Option.some.inj (c2.symm.trans d2)
            rw [hga, hman]
          exact (c3 hgcman).symm.trans (d3 hman)
        · cases hvtgv : tc.boat_vel.vtg_vel with
          | some vc =>
            obtain ⟨e1, e2, e3, e4, e5⟩ := rcvtg htcgps vc hvtgv
            exact d4.trans e1.symm
          | none =>
            dsimp only
            rw [if_bool_pos htcgps, hgc]
            exact d4.trans c4.symm
        · intro hman
          cases hvtgv : tc.boat_vel.vtg_vel with
          | some vc =>
            rw [hvtgv] at hman
            obtain ⟨e1, e2, e3, e4, e5⟩ := rcvtg htcgps vc hvtgv
            have hman' : vc.gps_HDOP_filter = manual := hman
            have hsman : s.GPSHDOPFilter = manual := e1 ▸ hman'
            obtain ⟨f1, f2⟩ := e2 hsman
            obtain ⟨g1m, g2m⟩ := d5 hsman
            exact ⟨g1m.trans f1.symm, g2m.trans f2.symm⟩
          | none =>
            rw [hvtgv] at hman
            dsimp only at hman
            rw [if_bool_pos htcgps, hgc] at hman
            have hman' : gc.gps_HDOP_filter = manual := hman
            have hsman : s.GPSHDOPFilter = manual := c4 ▸ hman'
            obtain ⟨f1, f2⟩ := c5 hsman
            obtain ⟨g1m, g2m⟩ := d5 hsman
            dsimp only
            simp only [if_bool_pos htcgps, hgc]
            exact ⟨g1m.trans f1.symm, g2m.trans f2.symm⟩
        · cases hvtgv : tc.boat_vel.vtg_vel with
          | some vc =>
            obtain ⟨e1, e2, e3, e4, e5⟩ := rcvtg htcgps vc hvtgv
            exact d6.trans e3.symm
          | none =>
            dsimp only
            rw [if_bool_pos htcgps, hgc]
            exact d6.trans c6.symm
        · cases hvtgv : tc.boat_vel.vtg_vel with
          | some vc =>
            obtain ⟨e1, e2, e3, e4, e5⟩ := rcvtg htcgps vc hvtgv
            exact d8.trans e5.symm
          | none =>
            dsimp only
            rw [if_bool_pos htcgps, hgc]
            exact d8.trans c8.symm
      · intro hgps v hv
        have htcgps : tc.gps = true := hut1 ▸ hgps
        have hvsome : tc.boat_vel.vtg_vel.isSome = true := by
          rw [← hut3, hv]
          rfl
        obtain ⟨vc, hvc⟩ := Option.isSome_iff_exists.mp hvsome
        obtain ⟨e1, e2, e3, e4, e5⟩ := rcvtg htcgps vc hvc
        obtain ⟨k1, k2, k3, k4, k5⟩ := rtvtg hgps v hv
        rw [hvc]
        refine ⟨k1.trans e1.symm, ?_, k3.trans e3.symm, k4, k5.trans e5.symm⟩
        intro hman
        have hman' : vc.gps_HDOP_filter = manual := hman
        have hsman : s.GPSHDOPFilter = manual := e1 ▸ hman'
        obtain ⟨f1, f2⟩ := e2 hsman
        obtain ⟨g1m, g2m⟩ := k2 hsman
        exact ⟨g1m.trans f1.symm, g2m.trans f2.symm⟩
      · intro hgps
        have htcgps : tc.gps = true := hut1 ▸ hgps
        rw [rtgip hgps]
        cases hvtgv : tc.boat_vel.vtg_vel with
        | some vc =>
          obtain ⟨e1, e2, e3, e4, e5⟩ := rcvtg htcgps vc hvtgv
          dsimp only
          rw [e5]
        | none =>
          dsimp only
          rw [if_bool_pos htcgps]
          have hgsome : tc.boat_vel.gga_vel.isSome = true := by
            rcases hsrc_tc htcgps with h | h
            · exact h
            · rw [hvtgv] at h
              exact absurd h (by simp)
          obtain ⟨gc, hgc⟩ := Option.isSome_iff_exists.mp hgsome
          obtain ⟨c1, c2, c3, c4, c5, c6, c7, c8⟩ := rcgga htcgps gc hgc
          rw [hgc]
          dsimp only
          rw [c8]
      · intro d hd
        exact (rtdvb d hd).trans hdrec.symm
      · intro d hd
        exact (rtdds d hd).trans hdrec.symm
      · intro h
        have hs : s.WTdFilter = manual := rcwtd ▸ h
        exact (rtwtdth hs).trans (rcwtdth hs).symm
      · intro h
        have hs : s.WTwFilter = manual := rcwtw ▸ h
        exact (rtwtwth hs).trans (rcwtwth hs).symm
end QRev
namespace QRev
/-- Claim C4 amended: on a measurement just produced by
`apply_settings` with a fully populated snapshot, and whose transects
have uniform GPS availability, `current_settings` followed immediately
by `apply_settings` with the captured snapshot changes nothing: every
transect (hence every processed output) is returned unchanged. -/
theorem C4_roundtrip (m : Measurement) (s : Settings) (p : Measurement × Settings)
    (s0 : Settings)
    (hfull : fully_populated s)
    (h1 : apply_settings m s = .ok p)
    (huni : gps_uniform p.1)
    (hcs : current_settings p.1 = .ok s0) :
    apply_settings p.1 s0 = .ok (p.1, s0) := by
  obtain ⟨hP, hTop, hBot, hExp, -, -, -, -, -⟩ := hfull
  obtain ⟨m1, s1⟩ := p
  dsimp only at huni hcs ⊢
  unfold apply_settings at h1
  rw [apply_settings_loop_eq] at h1
  by_cases hall : m.transects.all (fun t => gps_ok s t) = true
  · rw [if_pos hall] at h1
    dsimp only at h1
    cases hE : apply_settings_extrap m.extrap_fit
        (m.transects.map (transect_pipeline s)) s with
    | error e =>
      rw [hE] at h1
      dsimp only at h1
      exact absurd h1 (by simp)
    | ok trip =>
      obtain ⟨fit1, trip2⟩ := trip
      obtain ⟨ts2, s1x⟩ := trip2
      rw [hE] at h1
      dsimp only at h1
      obtain ⟨hs1s, hndt, hts2, hmeth⟩ :=
        extrap_first m.extrap_fit _ s fit1 ts2 s1x hTop hE
      have hs1s' := hs1s.symm
      subst hs1s'
      simp only [Except.ok.injEq, Prod.mk.injEq] at h1
      obtain ⟨hm1, hs1⟩ := h1
      subst hs1
      subst hm1
      have hre1 : ∀ t ∈ m.transects.map (transect_pipeline s), reapplies s t := by
        intro t ht
        obtain ⟨u, hu, rfl⟩ := List.mem_map.mp ht
        exact transect_pipeline_reapplies s u (List.all_eq_true.mp hall u hu)
      have hre2 : ∀ t ∈ ts2, reapplies s t := by
        intro t ht
        rw [hts2] at ht
        obtain ⟨u, hu, rfl⟩ := List.mem_map.mp ht
        exact reapplies_set_extrap s u _ _ _ (hre1 u hu)
      have hre3 : ∀ t ∈ ts2.map (wt_apply_interpolation s), reapplies s t := by
        intro t ht
        obtain ⟨u, hu, rfl⟩ := List.mem_map.mp ht
        exact reapplies_wt_interp s s u (hre2 u hu)
      have hext3 : ∀ t ∈ ts2.map (wt_apply_interpolation s),
          t.extrap = { top_method := fit1.sel_top, bot_method := fit1.sel_bot,
                       exponent := fit1.sel_exp } := by
        intro t ht
        obtain ⟨u, hu, rfl⟩ := List.mem_map.mp ht
        rw [hts2] at hu
        obtain ⟨v, hv, rfl⟩ := List.mem_map.mp hu
        rfl
      have hauto : auto_fit (ts2.map (wt_apply_interpolation s)) =
          auto_fit (m.transects.map (transect_pipeline s)) := by
        rw [auto_fit_congr (wt_apply_interpolation s) ts2
              (fun t _ => wt_interp_preserves s t), hts2,
            auto_fit_congr _ _ (fun t _ => set_extrap_preserves _ _ _ t)]
      obtain ⟨tc, hget, hs0P, hs0T, hs0B, hs0X, hs0E, hs0C⟩ :=
        current_settings_inv _ s0 hcs
      have hre0 : ∀ t ∈ ts2.map (wt_apply_interpolation s), reapplies s0 t :=
        captured_reapplies s s0 _ hcs hre3 huni
      have htcmem : tc ∈ ts2.map (wt_apply_interpolation s) := mem_of_get?_eq hget
      obtain ⟨u0, hu0, htc⟩ := List.mem_map.mp htcmem
      have hsEns : s0.WTEnsInterpolation = s.WTEnsInterpolation := by
        rw [hs0E, ← htc]
        rfl
      have hsCell : s0.WTCellInterpolation = s.WTCellInterpolation := by
        rw [hs0C, ← htc]
        rfl
      have hs0T' : s0.extrapTop = some fit1.sel_top := hs0T
      have hs0B' : s0.extrapBot = some fit1.sel_bot := hs0B
      have hs0X' : s0.extrapExp = some fit1.sel_exp := hs0X
      have hTop0 : s0.extrapTop.isSome = true := by
        rw [hs0T']
        rfl
      have hBot0 : s0.extrapBot.isSome = true := by
        rw [hs0B']
        rfl
      have hExp0 : s0.extrapExp.isSome = true := by
        rw [hs0X']
        rfl
      have hmeth0 : (fit1.fit_method = .str "Automatic" ∧
          fit1.sel_top = (auto_fit (ts2.map (wt_apply_interpolation s))).1 ∧
          fit1.sel_bot = (auto_fit (ts2.map (wt_apply_interpolation s))).2.1 ∧
          fit1.sel_exp = (auto_fit (ts2.map (wt_apply_interpolation s))).2.2) ∨
          (fit1.fit_method = manual ∧
            (ts2.map (wt_apply_interpolation s) = [] ∨
             (s0.extrapTop = some fit1.sel_top ∧ s0.extrapBot = some fit1.sel_bot ∧
              s0.extrapExp = some fit1.sel_exp))) := by
        rcases hmeth with ⟨hA, h1t, h1b, h1e⟩ | ⟨hMan, hrest⟩
        · left
          rw [hauto]
          exact ⟨hA, h1t, h1b, h1e⟩
        · exact Or.inr ⟨hMan, Or.inr ⟨hs0T', hs0B', hs0X'⟩⟩
      have hrerun := extrap_rerun s0
        { fit1 with q_sensitivity := some (ts2.map (wt_apply_interpolation s),
            (fit1.sel_top, fit1.sel_bot, fit1.sel_exp)) }
        (ts2.map (wt_apply_interpolation s)) hTop0 hBot0 hExp0 hndt hext3 hmeth0
      have hall0 : (ts2.map (wt_apply_interpolation s)).all
          (fun t => gps_ok s0 t) = true :=
        List.all_eq_true.mpr (fun t ht => gps_ok_of_reapplies s0 t (hre0 t ht))
      have hmap0 : (ts2.map (wt_apply_interpolation s)).map (transect_pipeline s0) =
          ts2.map (wt_apply_interpolation s) :=
        list_map_id_of _ _ (fun t ht => transect_pipeline_fixpoint s0 t (hre0 t ht))
      have hmb0 : loop_mb s0 (ts2.map (wt_apply_interpolation s))
          (loop_mb s m.transects m.mb_tests) = loop_mb s m.transects m.mb_tests :=
        loop_mb_fixpoint s0 _ _ (fun t ht => (hre0 t ht).2.1)
      have hwtai0 : (ts2.map (wt_apply_interpolation s)).map
          (wt_apply_interpolation s0) = ts2.map (wt_apply_interpolation s) := by
        apply list_map_id_of
        intro t ht
        obtain ⟨u, hu, rfl⟩ := List.mem_map.mp ht
        apply wt_apply_interpolation_fix
        · exact Eq.trans rfl hsEns.symm
        · exact Eq.trans rfl hsCell.symm
        · rw [hsEns, hsCell]
          rfl
      unfold apply_settings
      dsimp only
      rw [apply_settings_loop_eq]
      rw [if_pos hall0]
      dsimp only
      rw [hmap0, hmb0, hrerun]
      dsimp only
      rw [hwtai0]
      rw [hs0P]
  · rw [if_neg hall] at h1
    dsimp only at h1
    exact absurd h1 (by simp)
end QRev
namespace QRev
/-- Witness for the amended claim C4 theorem on the processed
GPS-free measurement. -/
theorem C4_witness :
    fully_populated exSettings ∧ gps_uniform exApplied.1 ∧
    current_settings exApplied.1 = .ok exCaptured ∧
    apply_settings exApplied.1 exCaptured = .ok (exApplied.1, exCaptured) :=
  ⟨by decide, by decide, rfl,
   C4_roundtrip exMeas exSettings exApplied exCaptured (by decide) rfl (by decide) rfl⟩

/-- Counterexample to claim C4 as stated: with mixed GGA availability
the captured snapshot records the fallback defaults of the first
checked transect, which lacks GGA data, and reapplying it alters the
GGA-carrying transect. -/
theorem C4_counterexample :
    apply_settings exMeasMixed exSettings = .ok exMixedApplied ∧
    current_settings exMixedApplied.1 = .ok exMixedCaptured ∧
    apply_settings exMixedApplied.1 exMixedCaptured = .ok exMixedReapplied ∧
    exMixedReapplied.1.transects ≠ exMixedApplied.1.transects :=
  ⟨rfl, rfl, rfl, by decide⟩
end QRev
namespace QRev
/-- Claim C3 amended: `apply_settings` returns the snapshot it was
given unchanged whenever the snapshot carries the `'extrapTop'` key.
Without that key and with a stored Manual-mode fit the snapshot is
extended in place (see the counterexample). -/
theorem C3_settings_preserved (m : Measurement) (s : Settings)
    (p : Measurement × Settings)
    (hTop : s.extrapTop.isSome = true)
    (h1 : apply_settings m s = .ok p) : p.2 = s := by
  obtain ⟨m1, s1⟩ := p
  dsimp only
  unfold apply_settings at h1
  rw [apply_settings_loop_eq] at h1
  by_cases hall : m.transects.all (fun t => gps_ok s t) = true
  · rw [if_pos hall] at h1
    dsimp only at h1
    cases hE : apply_settings_extrap m.extrap_fit
        (m.transects.map (transect_pipeline s)) s with
    | error e =>
      rw [hE] at h1
      dsimp only at h1
      exact absurd h1 (by simp)
    | ok trip =>
      obtain ⟨fit1, trip2⟩ := trip
      obtain ⟨ts2, s1x⟩ := trip2
      rw [hE] at h1
      dsimp only at h1
      simp only [Except.ok.injEq, Prod.mk.injEq] at h1
      obtain ⟨hm1, hs1⟩ := h1
      obtain ⟨hs1s, -, -, -⟩ := extrap_first m.extrap_fit _ s fit1 ts2 s1x hTop hE
      rw [← hs1, hs1s]
  · rw [if_neg hall] at h1
    dsimp only at h1
    exact absurd h1 (by simp)

/-- Witness for the amended claim C3 theorem. -/
theorem C3_witness :
    exSettings.extrapTop.isSome = true ∧ exApplied.2 = exSettings :=
  ⟨by decide, C3_settings_preserved exMeas exSettings exApplied (by decide) rfl⟩

/-- Counterexample to claim C3 as stated: a stored Manual-mode fit and
a snapshot lacking the extrapolation keys make `apply_settings` write
`'extrapTop'`, `'extrapBot'` and `'extrapExp'` into the snapshot. -/
theorem C3_counterexample :
    settings_after exMeasManual exSettingsNoExtrap = some exSettingsExtended ∧
    exSettingsExtended ≠ exSettingsNoExtrap :=
  ⟨by decide, by decide⟩

/-- Claim C2 refuted (code bug): when the vertical-velocity filter mode
is `'Manual'`, the `bt_kwargs` dictionary built by `apply_settings`
lacks the `'beam'` and `'other'` keys — the assignments of source lines
871 and 874 sit inside the `else` branch of the mode test — so the
beam-count and smoothness settings are not passed to `boat_filters` and
the transect's stored values survive unchanged. -/
theorem C2_manual_w_filter_drops_beam_and_smooth (s : Settings) (t : Transect)
    (h : s.BTwFilter = manual) :
    (bt_kwargs_of s).beam = none ∧ (bt_kwargs_of s).other = none ∧
    (boat_filters (bt_kwargs_of s) t).boat_vel.bt_vel.beam_filter =
      t.boat_vel.bt_vel.beam_filter ∧
    (boat_filters (bt_kwargs_of s) t).boat_vel.bt_vel.smooth_filter =
      t.boat_vel.bt_vel.smooth_filter := by
  simp [bt_kwargs_of, boat_filters, h]

/-- Witness for the claim C2 theorem at a Manual-mode snapshot. -/
theorem C2_witness :
    ({ exSettings with BTwFilter := manual } : Settings).BTwFilter = manual ∧
    ((bt_kwargs_of { exSettings with BTwFilter := manual }).beam = none ∧
     (bt_kwargs_of { exSettings with BTwFilter := manual }).other = none ∧
     (boat_filters (bt_kwargs_of { exSettings with BTwFilter := manual })
        (exTransect 1 true)).boat_vel.bt_vel.beam_filter =
       (exTransect 1 true).boat_vel.bt_vel.beam_filter ∧
     (boat_filters (bt_kwargs_of { exSettings with BTwFilter := manual })
        (exTransect 1 true)).boat_vel.bt_vel.smooth_filter =
       (exTransect 1 true).boat_vel.bt_vel.smooth_filter) :=
  ⟨by decide,
   C2_manual_w_filter_drops_beam_and_smooth _ (exTransect 1 true) (by decide)⟩

/-- Claim C6 refuted (code bug): `no_filter_interp_settings` reads
`self.transects[0].boatVel` (source line 1216), an attribute
`TransectData` does not define — the defined name is `boat_vel` — so
the call raises `AttributeError` on every measurement instead of
returning the all-Off bundle. -/
theorem C6_no_filter_settings_raises (m : Measurement) :
    no_filter_interp_settings m = .error () := by
  unfold no_filter_interp_settings
  cases m.transects.get? 0
  · rfl
  · rfl

/-- Claim C8 amended: the `np.nanmean` and `np.nanmax` aggregates of
`compute_measurement_properties` skip missing values (prepending a
missing value changes nothing) and yield a missing value, not an error,
on an all-missing set; but `mean_discharges` aggregates with `np.mean`,
which propagates any missing value into the component mean. -/
theorem C8_nan_handling (xs : List (Option ℚ)) (k : Nat) :
    trans_prop_nanmean_aggregate (none :: xs) = trans_prop_nanmean_aggregate xs ∧
    trans_prop_nanmax_aggregate (none :: xs) = trans_prop_nanmax_aggregate xs ∧
    trans_prop_nanmean_aggregate (List.replicate k none) = none ∧
    trans_prop_nanmax_aggregate (List.replicate k none) = none ∧
    np_mean (none :: xs) = none := by
  refine ⟨?_, ?_, ?_, ?_, ?_⟩
  · unfold trans_prop_nanmean_aggregate np_nanmean
    simp
  · unfold trans_prop_nanmax_aggregate np_nanmax
    simp
  · unfold trans_prop_nanmean_aggregate np_nanmean
    simp
  · unfold trans_prop_nanmax_aggregate np_nanmax
    simp
  · unfold np_mean
    simp

/-- Counterexample to claim C8 as stated: with two checked transects,
one missing its discharge components, `mean_discharges` reports missing
means even though an `np.nanmean` aggregate of the same data reports
the available value. -/
theorem C8_counterexample :
    mean_discharges [true, true] [mkQVals (some 5), mkQVals none] =
      .ok { total_mean := none, uncorrected_mean := none, top_mean := none,
            mid_mean := none, bot_mean := none, left_mean := none,
            right_mean := none, int_cells_mean := none,
            int_ensembles_mean := none } ∧
    np_nanmean [some (5 : ℚ), none] = some 5 := by
  constructor
  · rfl
  · unfold np_nanmean
    norm_num [List.filterMap]

/-- Claim C10: when the moving-bed test list is non-empty and no test
has its `selected` flag set, the `MovingBedTestType` computation of
`xml_output` indexes the empty selected-index list (`selected_idx[-1]`)
and raises `IndexError` instead of producing a value. -/
theorem C10_unselected_mb_tests_raise (tests : List MovingBedTest)
    (hne : tests ≠ [])
    (hnosel : ∀ t ∈ tests, t.selected = false) :
    xml_moving_bed_test_type tests = .error () := by
  unfold xml_moving_bed_test_type
  rw [if_neg (fun h => hne (List.isEmpty_iff.mp h))]
  have hsel : selected_mb_idx tests = [] := by
    unfold selected_mb_idx
    rw [List.filter_eq_nil_iff.mpr]
    · rfl
    · intro p hp
      have hmem : p.2 ∈ tests := by
        obtain ⟨h1, h2, h3⟩ := List.mem_enumFrom hp
        rw [h3]
        exact List.getElem_mem _
      simp [hnosel p.2 hmem]
  dsimp only
  rw [hsel]
  rfl

/-- Witness for claim C10 on a one-test list with nothing selected. -/
theorem C10_witness :
    exMbTests ≠ [] ∧ (∀ t ∈ exMbTests, t.selected = false) ∧
    xml_moving_bed_test_type exMbTests = .error () :=
  ⟨by decide, by decide,
   C10_unselected_mb_tests_raise exMbTests (by decide) (by decide)⟩
end QRev
namespace QRev
theorem fca_spec (l : List Transect) :
    ∀ n : Nat,
    ((∀ u ∈ l, u.checked = false) ∧ first_checked_aux l n = 0) ∨
    (n ≤ first_checked_aux l n ∧
     (∀ u, l.get? (first_checked_aux l n - n) = some u → u.checked = true) ∧
     (∀ j u, l.get? j = some u → n + j < first_checked_aux l n →
        u.checked = false)) := by
  induction l with
  | nil =>
    intro n
    exact Or.inl ⟨by simp, rfl⟩
  | cons t ts ih =>
    intro n
    by_cases hc : t.checked = true
    · right
      unfold first_checked_aux
      rw [if_pos hc]
      refine ⟨le_refl n, ?_, ?_⟩
      · intro u hu
        rw [Nat.sub_self] at hu
        have : t = u := Option.some.inj hu
        rw [← this]
        exact hc
      · intro j u hju hlt
        omega
    · have hcf : t.checked = false := by
        cases hcc : t.checked
        · rfl
        · exact absurd hcc hc
      unfold first_checked_aux
      rw [if_neg hc]
      rcases ih (n + 1) with ⟨hall, h0⟩ | ⟨hge, hsel, hpre⟩
      · left
        refine ⟨?_, h0⟩
        intro u hu
        rcases List.mem_cons.mp hu with h | h
        · rw [h]
          exact hcf
        · exact hall u h
      · right
        refine ⟨by omega, ?_, ?_⟩
        · intro u hu
          have harith : first_checked_aux ts (n + 1) - n =
              (first_checked_aux ts (n + 1) - (n + 1)) + 1 := by omega
          rw [harith] at hu
          exact hsel u hu
        · intro j u hju hlt
          cases j with
          | zero =>
            have : t = u := Option.some.inj hju
            rw [← this]
            exact hcf
          | succ j' =>
            exact hpre j' u hju (by omega)

/-- Claim C5: `current_settings` is a pure read (the embedding is a
function of the measurement alone) of the first checked transect — or
the first transect when none is checked: every transect before
`first_idx` is unchecked, the snapshot's values are copies of that
transect's stored settings, and when no fit object exists the
extrapolation keys fall back to the transect's own `extrap` fields. -/
theorem C5_current_settings_reads (m : Measurement) (s0 : Settings)
    (hcs : current_settings m = .ok s0) :
    first_checked_idx m < m.transects.length ∧
    (∀ j u, m.transects.get? j = some u → j < first_checked_idx m →
       u.checked = false) ∧
    (∀ t, m.transects.get? (first_checked_idx m) = some t →
       (t.checked = true ∨
        ((∀ u ∈ m.transects, u.checked = false) ∧ first_checked_idx m = 0)) ∧
       s0.NavRef = t.boat_vel.selected ∧
       s0.CompTracks = t.boat_vel.composite ∧
       s0.WTbeamFilter = t.w_vel.beam_filter ∧
       s0.BTdFilter = t.boat_vel.bt_vel.d_filter ∧
       s0.depthReference = t.depths.selected ∧
       s0.edgeVelMethod = t.edges.vel_method ∧
       (m.extrap_fit = none →
         s0.extrapTop = some t.extrap.top_method ∧
         s0.extrapBot = some t.extrap.bot_method ∧
         s0.extrapExp = some t.extrap.exponent)) := by
  unfold current_settings at hcs
  cases hget : m.transects.get? (first_checked_idx m) with
  | none =>
    rw [hget] at hcs
    exact absurd hcs (by simp)
  | some tc =>
    rw [hget] at hcs
    dsimp only at hcs
    cases hsel : get_depth_src tc.depths tc.depths.selected with
    | none =>
      rw [hsel] at hcs
      exact absurd hcs (by simp)
    | some seld =>
      rw [hsel] at hcs
      dsimp only at hcs
      have hrec0 := Except.ok.inj hcs
      subst hrec0
      have hlt : first_checked_idx m < m.transects.length :=
        (List.get?_eq_some.mp hget).1
      refine ⟨hlt, ?_, ?_⟩
      · intro j u hju hjlt
        unfold first_checked_idx at hjlt
        rcases fca_spec m.transects 0 with ⟨-, h0⟩ | ⟨-, -, hpre⟩
        · omega
        · exact hpre j u hju (by omega)
      · intro t ht
        have htc : tc = t := Option.some.inj ht
        subst htc
        refine ⟨?_, rfl, rfl, rfl, rfl, rfl, rfl, ?_⟩
        · rcases fca_spec m.transects 0 with ⟨hall, h0⟩ | ⟨-, hselc, -⟩
          · exact Or.inr ⟨hall, h0⟩
          · left
            apply hselc
            rw [Nat.sub_zero]
            exact hget
        · intro hfit
          rw [hfit]
          exact ⟨rfl, rfl, rfl⟩

/-- Witness for claim C5 on the raw two-transect measurement. -/
theorem C5_witness :
    current_settings exMeas = .ok exRawCaptured ∧
    first_checked_idx exMeas < exMeas.transects.length :=
  ⟨rfl, (C5_current_settings_reads exMeas exRawCaptured rfl).1⟩
end QRev
namespace QRev
theorem heading_scan_external (ts : List Transect)
    (hext : ∀ t ∈ ts, t.sensors.heading_selected ≠ .str "internal") :
    ∀ k n, ts.length - n = k → n ≤ ts.length →
      heading_internal_scan ts n = .error () := by
  intro k
  induction k with
  | zero =>
    intro n hkn hle
    have hn : n = ts.length := by omega
    unfold heading_internal_scan
    rw [if_pos hle]
    have hnone : ts.get? n = none := by
      rw [List.get?_eq_none]
      omega
    rw [hnone]
  | succ k' ih =>
    intro n hkn hle
    have hlt : n < ts.length := by omega
    obtain ⟨t, ht⟩ := Option.isSome_iff_exists.mp
      (by rw [List.get?_eq_get hlt]; rfl : (ts.get? n).isSome = true)
    unfold heading_internal_scan
    rw [if_pos hle, ht]
    dsimp only
    rw [if_neg (hext t (mem_of_get?_eq ht))]
    exact ih (n + 1) (by omega) (by omega)

/-- Claim C7 refuted (code bug): the heading scans of `change_magvar`
and `change_h_offset` run `while n <= n_transects` with an inclusive
bound, so when no transect uses the internal heading source the loop
indexes one past the end of the transect list and raises `IndexError`
instead of returning normally without a recompute. -/
theorem C7_external_heading_raises (m : Measurement) (v : SV)
    (hext : ∀ t ∈ m.transects, t.sensors.heading_selected ≠ .str "internal") :
    change_magvar m v = .error () ∧ change_h_offset m v = .error () := by
  have hscan : heading_internal_scan m.transects 0 = .error () :=
    heading_scan_external m.transects hext m.transects.length 0 (by omega)
      (by omega)
  unfold change_magvar change_h_offset
  cases hs : current_settings m with
  | error e =>
    exact ⟨rfl, rfl⟩
  | ok s =>
    rw [hscan]
    exact ⟨rfl, rfl⟩

/-- Witness for the claim C7 theorem on an external-heading
measurement. -/
theorem C7_witness :
    (∀ t ∈ exMeasExternal.transects,
       t.sensors.heading_selected ≠ .str "internal") ∧
    change_magvar exMeasExternal (.num 5) = .error () ∧
    change_h_offset exMeasExternal (.num 5) = .error () :=
  ⟨by decide, C7_external_heading_raises exMeasExternal (.num 5) (by decide)⟩
end QRev
namespace QRev
theorem deg2rad_compl (d : ℝ) : deg2rad (90 - d) = Real.pi / 2 - deg2rad d := by
  unfold deg2rad
  ring

theorem cos_azdeg2rad (d : ℝ) :
    Real.cos (azdeg2rad d) = Real.sin (deg2rad d) := by
  unfold azdeg2rad
  dsimp only
  split_ifs with h
  · rw [Real.cos_add_two_pi, deg2rad_compl, Real.cos_pi_div_two_sub]
  · rw [deg2rad_compl, Real.cos_pi_div_two_sub]

theorem sin_azdeg2rad (d : ℝ) :
    Real.sin (azdeg2rad d) = Real.cos (deg2rad d) := by
  unfold azdeg2rad
  dsimp only
  split_ifs with h
  · rw [Real.sin_add_two_pi, deg2rad_compl, Real.sin_pi_div_two_sub]
  · rw [deg2rad_compl, Real.sin_pi_div_two_sub]

/-- Claim C9: the aggregate flow direction is the vector mean of the
per-transect directions — the code's `azdeg2rad`/`pol2cart` path equals
the specification's unit-vector averaging — and for directions 350 and
10 degrees it is exactly 0 degrees, not the arithmetic mean 180. -/
theorem C9_flow_direction_vector_mean :
    (∀ dirs : List ℝ, avg_water_dir dirs = vector_averaged_direction dirs) ∧
    avg_water_dir [350, 10] = 0 := by
  have hx : (fun d : ℝ => (pol2cart (azdeg2rad d) 1).1) =
      fun d : ℝ => Real.sin (deg2rad d) := by
    funext d
    unfold pol2cart
    dsimp only
    rw [one_mul, cos_azdeg2rad]
  have hy : (fun d : ℝ => (pol2cart (azdeg2rad d) 1).2) =
      fun d : ℝ => Real.cos (deg2rad d) := by
    funext d
    unfold pol2cart
    dsimp only
    rw [one_mul, sin_azdeg2rad]
  have hmain : ∀ dirs : List ℝ,
      avg_water_dir dirs = vector_averaged_direction dirs := by
    intro dirs
    unfold avg_water_dir vector_averaged_direction
    dsimp only
    rw [hx, hy]
  refine ⟨hmain, ?_⟩
  rw [hmain]
  unfold vector_averaged_direction
  dsimp only
  have hrot : deg2rad 350 = -(deg2rad 10) + 2 * Real.pi := by
    unfold deg2rad
    ring
  have h350s : Real.sin (deg2rad 350) = -Real.sin (deg2rad 10) := by
    rw [hrot, Real.sin_add_two_pi, Real.sin_neg]
  have h350c : Real.cos (deg2rad 350) = Real.cos (deg2rad 10) := by
    rw [hrot, Real.cos_add_two_pi, Real.cos_neg]
  have hcpos : 0 < Real.cos (deg2rad 10) := by
    apply Real.cos_pos_of_mem_Ioo
    rw [Set.mem_Ioo]
    constructor
    · unfold deg2rad
      nlinarith [Real.pi_pos]
    · unfold deg2rad
      nlinarith [Real.pi_pos]
  simp only [List.map_cons, List.map_nil]
  have hxmean : list_rmean [Real.sin (deg2rad 350), Real.sin (deg2rad 10)] = 0 := by
    unfold list_rmean
    rw [h350s]
    simp [List.sum_cons, List.sum_nil]
  have hymean : list_rmean [Real.cos (deg2rad 350), Real.cos (deg2rad 10)] =
      Real.cos (deg2rad 10) := by
    unfold list_rmean
    rw [h350c]
    simp only [List.sum_cons, List.sum_nil, List.length_cons, List.length_nil]
    push_cast
    ring
  rw [hxmean, hymean]
  unfold cart2pol
  dsimp only
  unfold arctan2
  rw [if_neg (lt_irrefl 0), if_neg (lt_irrefl 0), if_pos hcpos]
  unfold rad2azdeg
  dsimp only
  have h90 : (90 : ℝ) - Real.pi / 2 * 180 / Real.pi = 0 := by
    field_simp
    ring
  rw [h90, if_neg (lt_irrefl 0)]
end QRev
